import Mathlib

/-!
Verification of the admin-test-api service (FastAPI + SQLModel, src/main.py,
src/Models/Models.py, src/Models/ApiModels.py) against its specification.

Shallow embedding conventions:
* Each SQL table is a Lean `List` of row structures inside a `Store`; surrogate
  primary keys are `Nat` counters carried by the store (autoincrement).
* Each endpoint handler from src/main.py becomes a pure function
  `Store → Except ApiError α × Store`; raising `HTTPException` before any
  commit is modelled by returning `.error` together with the unchanged store
  (the session rolls back, so the database is untouched on those paths).
* `datetime.now()` is modelled by an explicit clock argument `now : Nat`
  passed to the handler; real time is otherwise not modelled.
* Python `int` fields are `Int` where the code compares or orders them
  (`stock_quantity`, `quantity_sold`), `Nat` where only identity equality is
  used (surrogate ids). `sale_price` is a Python `float`; the handlers only
  compare it against `0`, an order comparison that is exact on the finite
  floats, so it is embedded as `Int`.
* SQLAlchemy `.one()` raising `NoResultFound` / `MultipleResultsFound`
  (an exception that is not an `HTTPException` and surfaces as an unhandled
  500 error) is modelled by the distinguished errors below.
-/

/-- Rows of the categories table (src/Models/Models.py, class Category). -/
structure Category where
  category_id : Nat
  category_name : String
deriving DecidableEq, Repr

/-- Rows of the brands table (src/Models/Models.py, class Brand). -/
structure Brand where
  brand_id : Nat
  brand_name : String
deriving DecidableEq, Repr

/-- Rows of the platforms table (src/Models/Models.py, class Platform). -/
structure Platform where
  platform_id : Nat
  platform_name : String
deriving DecidableEq, Repr

/-- Rows of the products table (src/Models/Models.py, class Product).
`category_id` and `brand_id` are nullable foreign keys. -/
structure Product where
  product_id : Nat
  product_name : String
  category_id : Option Nat
  brand_id : Option Nat
deriving DecidableEq, Repr

/-- Rows of the sales table (src/Models/Models.py, class Sale).
`sale_date` is an abstract day code. -/
structure Sale where
  sale_id : Nat
  product_id : Nat
  platform_id : Nat
  sale_date : Nat
  quantity_sold : Int
  sale_price : Int
deriving DecidableEq, Repr

/-- Rows of the inventory table (src/Models/Models.py, class Inventory).
`last_updated` is an abstract timestamp. -/
structure Inventory where
  inventory_id : Nat
  product_id : Nat
  platform_id : Nat
  stock_quantity : Int
  last_updated : Nat
deriving DecidableEq, Repr

/-- The whole relational store: the five tables of the sqlite database plus
the autoincrement counters for the surrogate primary keys. -/
structure Store where
  categories : List Category
  brands : List Brand
  platforms : List Platform
  products : List Product
  sales : List Sale
  inventory : List Inventory
  nextCategoryId : Nat
  nextBrandId : Nat
  nextProductId : Nat
  nextSaleId : Nat
  nextInventoryId : Nat
deriving DecidableEq, Repr

/-- Errors a handler can signal. Every `HTTPException` raised in src/main.py
carries status 404, including the validation failures; `noResultFound` and
`multipleResultsFound` are the SQLAlchemy exceptions that `.one()` raises,
which src/main.py does not catch (they are not HTTP 404 responses). -/
inductive ApiError where
  | httpError (status : Nat) (detail : String)
  | noResultFound
  | multipleResultsFound
deriving DecidableEq, Repr

/-- Request model for GET /inventory (src/Models/ApiModels.py, InvListModel).
`offset` and `limit` carry the pydantic defaults 0 and 100; `validLimits`
below captures the `Query(gt=0, le=100)` constraints on this model. -/
structure InvListModel where
  product_id : Option Nat := none
  platform_id : Option Nat := none
  min_stock_quantity : Option Int := none
  max_stock_quantity : Option Int := none
  offset : Int := 0
  limit : Int := 100
deriving DecidableEq, Repr

/-- Request body for POST /inventory (src/Models/ApiModels.py, InvUpdate). -/
structure InvUpdate where
  product_id : Nat
  platform_id : Nat
  stock_quantity : Int
deriving DecidableEq, Repr

/-- Request body for DELETE /inventory (src/Models/ApiModels.py, InvDelete). -/
structure InvDelete where
  product_id : Nat
  platform_id : Nat
deriving DecidableEq, Repr

/-- Request model for GET /product (src/Models/ApiModels.py,
ProductListModel); its `limit` is `Query(le=100)` with no lower bound. -/
structure ProductListModel where
  product_id : Option Nat := none
  product_name : Option String := none
  category_id : Option Nat := none
  brand_id : Option Nat := none
  offset : Int := 0
  limit : Int := 100
deriving DecidableEq, Repr

/-- Request body for POST /product (src/Models/ApiModels.py, ProductInsert);
the schema marks the foreign keys optional. -/
structure ProductInsert where
  product_name : String
  category_id : Option Nat
  brand_id : Option Nat
deriving DecidableEq, Repr

/-- Request body for PUT /product (src/Models/ApiModels.py, ProductUpdate). -/
structure ProductUpdate where
  product_id : Nat
  product_name : String
  category_id : Option Nat
  brand_id : Option Nat
deriving DecidableEq, Repr

/-- Request body for category create/update (src/Models/ApiModels.py,
CategoryDataModel). -/
structure CategoryDataModel where
  category_name : String
deriving DecidableEq, Repr

/-- Request body for brand create/update (src/Models/ApiModels.py,
BrandDataModel). -/
structure BrandDataModel where
  brand_name : String
deriving DecidableEq, Repr

/-- Request body for sale create/update (src/Models/ApiModels.py,
SalesDataModel). -/
structure SalesDataModel where
  product_id : Nat
  platform_id : Nat
  sale_date : Nat
  quantity_sold : Int
  sale_price : Int
deriving DecidableEq, Repr

/-- Request model for GET /sales (src/Models/ApiModels.py, SalesListModel);
its `limit` is `Query(le=100)` with no lower bound. -/
structure SalesListModel where
  product_id : Option Nat := none
  platform_id : Option Nat := none
  sale_date : Option Nat := none
  offset : Int := 0
  limit : Int := 100
deriving DecidableEq, Repr

/-- Pydantic validation of InvListModel pagination:
`offset: int = 0`, `limit: Annotated[int, Query(gt=0, le=100)] = 100`. -/
def InvListModel.validLimits (m : InvListModel) : Bool :=
  0 < m.limit && m.limit ≤ 100

/-- Pydantic validation of ProductListModel pagination: `limit` only has
`Query(le=100)`; there is no lower bound on it. -/
def ProductListModel.validLimits (m : ProductListModel) : Bool :=
  m.limit ≤ 100

/-- Pydantic validation of SalesListModel pagination: `limit` only has
`Query(le=100)`; there is no lower bound on it. -/
def SalesListModel.validLimits (m : SalesListModel) : Bool :=
  m.limit ≤ 100

/-- SQL OFFSET/LIMIT as sqlite applies them: a negative OFFSET acts as 0
(`Int.toNat` sends negatives to 0) and a negative LIMIT means unlimited. -/
def applyPage (off lim : Int) (rows : List α) : List α :=
  let rest := rows.drop off.toNat
  if lim < 0 then rest else rest.take lim.toNat

/-- SQL count of products with the given product_id, as built by
`select(func.count(col(Product.product_id))).where(Product.product_id == pid)`
in src/main.py. -/
def prodCount (s : Store) (pid : Nat) : Nat :=
  (s.products.filter (fun p => p.product_id == pid)).length

/-- SQL count of platforms with the given platform_id (src/main.py). -/
def platformCount (s : Store) (pid : Nat) : Nat :=
  (s.platforms.filter (fun p => p.platform_id == pid)).length

/-- SQL count of categories matching a nullable category_id value: the code
compares `Category.category_id == item.category_id` where `item.category_id`
may be NULL, and `category_id IS NULL` matches no row because the column is a
primary key. -/
def categoryCount (s : Store) (cid : Option Nat) : Nat :=
  (s.categories.filter (fun c => some c.category_id == cid)).length

/-- SQL count of brands matching a nullable brand_id value (src/main.py). -/
def brandCount (s : Store) (bid : Option Nat) : Nat :=
  (s.brands.filter (fun b => some b.brand_id == bid)).length

/-- Key predicate used by the inventory upsert and delete:
`Inventory.platform_id == item.platform_id, Inventory.product_id ==
item.product_id` (src/main.py lines 84 to 87 and 124 to 127). -/
def invKeyMatches (productId platformId : Nat) (r : Inventory) : Bool :=
  r.platform_id == platformId && r.product_id == productId

/-- ORM in-place mutation of the first row a `select ... .first()` returned:
only the first element satisfying the predicate is rewritten. -/
def updateFirst (p : α → Bool) (f : α → α) : List α → List α
  | [] => []
  | x :: xs => if p x then f x :: xs else x :: updateFirst p f xs

/-- POST /inventory (src/main.py, update_inv): validates product_id,
platform_id and stock_quantity, then updates the first row keyed by
`(product_id, platform_id)` or inserts a fresh one. `now` is the value
`datetime.now()` would produce. -/
def update_inv (item : InvUpdate) (now : Nat) (s : Store) :
    Except ApiError Inventory × Store :=
  if prodCount s item.product_id ≠ 1 then
    (.error (.httpError 404 "product_id is not valid."), s)
  else if platformCount s item.platform_id ≠ 1 then
    (.error (.httpError 404 "platform_id is not valid."), s)
  else if item.stock_quantity < 0 then
    (.error (.httpError 404 "stock_quantity must be zero or more."), s)
  else
    match s.inventory.find? (invKeyMatches item.product_id item.platform_id) with
    | none =>
        let inv : Inventory :=
          { inventory_id := s.nextInventoryId
            product_id := item.product_id
            platform_id := item.platform_id
            stock_quantity := item.stock_quantity
            last_updated := now }
        (.ok inv,
          { s with inventory := s.inventory ++ [inv],
                   nextInventoryId := s.nextInventoryId + 1 })
    | some r0 =>
        let r1 : Inventory :=
          { r0 with stock_quantity := item.stock_quantity, last_updated := now }
        let upd : Inventory → Inventory := fun r =>
          { r with stock_quantity := item.stock_quantity, last_updated := now }
        let inv1 :=
          updateFirst (invKeyMatches item.product_id item.platform_id) upd
            s.inventory
        (.ok r1, { s with inventory := inv1 })

/-- DELETE /inventory (src/main.py, delete_inv): validates product_id and
platform_id, then deletes the first row keyed by `(product_id, platform_id)`
if one exists; a missing row is not an error. -/
def delete_inv (item : InvDelete) (s : Store) : Except ApiError Unit × Store :=
  if prodCount s item.product_id ≠ 1 then
    (.error (.httpError 404 "product_id is not valid."), s)
  else if platformCount s item.platform_id ≠ 1 then
    (.error (.httpError 404 "platform_id is not valid."), s)
  else
    match s.inventory.find? (invKeyMatches item.product_id item.platform_id) with
    | none => (.ok (), s)
    | some r0 =>
        (.ok (), { s with inventory := s.inventory.erase r0 })

/-- WHERE clause of GET /inventory (src/main.py, get_inv lines 41 to 44):
in Python each conjunct is `criteria.f == None or SQL-condition`, so an unset
field contributes the constant TRUE and a set field contributes the
condition. -/
def invMatches (c : InvListModel) (r : Inventory) : Bool :=
  (match c.product_id with
   | none => true
   | some pid => r.product_id == pid) &&
  (match c.platform_id with
   | none => true
   | some pid => r.platform_id == pid) &&
  (match c.min_stock_quantity with
   | none => true
   | some m => m ≤ r.stock_quantity) &&
  (match c.max_stock_quantity with
   | none => true
   | some m => r.stock_quantity ≤ m)

/-- GET /inventory (src/main.py, get_inv): filter, then OFFSET and LIMIT. -/
def get_inv (c : InvListModel) (s : Store) : List Inventory :=
  applyPage c.offset c.limit (s.inventory.filter (invMatches c))

/-- GET /inventory/id (src/main.py, get_inv_by_id): primary-key lookup,
404 when absent. -/
def get_inv_by_id (invId : Nat) (s : Store) : Except ApiError Inventory :=
  match s.inventory.find? (fun r => r.inventory_id == invId) with
  | none => .error (.httpError 404 "Inventory not found.")
  | some r => .ok r

/-- Check that the haystack starts with the needle, character by character. -/
def startsWithChars : List Char → List Char → Bool
  | _, [] => true
  | [], _ :: _ => false
  | h :: hs, n :: ns => h == n && startsWithChars hs ns

/-- Substring containment on character lists, scanning every suffix. -/
def containsSub : List Char → List Char → Bool
  | hay, needle =>
    if startsWithChars hay needle then true
    else
      match hay with
      | [] => false
      | _ :: hs => containsSub hs needle

/-- Case folding as the sqlite LIKE operator applies it by default: only
the ASCII letters A to Z are folded to lower case; every other character,
including non-ASCII letters, is left unchanged. -/
def asciiLower (c : Char) : Char :=
  if 'A' ≤ c ∧ c ≤ 'Z' then Char.ofNat (c.toNat + 32) else c

/-- Fuelled matcher for the sqlite LIKE operator over character lists:
a pattern `%` matches any sequence of zero or more characters, `_` matches
exactly one character, and any other pattern character matches one text
character up to ASCII case folding (no ESCAPE clause is in play, so `%`
and `_` are always wildcards). The fuel only bounds the recursion; it is
structural so that the matcher evaluates inside the kernel. -/
def likeFuel : Nat → List Char → List Char → Bool
  | 0, _, _ => false
  | _ + 1, [], t => t.isEmpty
  | n + 1, p :: ps, t =>
    if p = '%' then
      likeFuel n ps t ||
        (match t with
         | [] => false
         | _ :: ts => likeFuel n (p :: ps) ts)
    else
      match t with
      | [] => false
      | c :: ts =>
        if p = '_' then likeFuel n ps ts
        else asciiLower p == asciiLower c && likeFuel n ps ts

/-- The sqlite LIKE operator: every recursive step of `likeFuel` consumes a
pattern or text character, so this fuel always suffices. -/
def likeChars (p t : List Char) : Bool :=
  likeFuel (p.length + t.length + 1) p t

/-- SQL condition generated by `col(Product.product_name).contains(x)` in
src/main.py: on sqlite this is `product_name LIKE '%' || x || '%'`, which
is ASCII case-insensitive and treats `%` and `_` inside the filter value as
wildcards. -/
def likeContains (hay needle : String) : Bool :=
  likeChars ('%' :: (needle.data ++ ['%'])) hay.data

/-- WHERE clause of GET /product (src/main.py, get_prod lines 140 to 143):
unset fields are pass-through, product_name is a sqlite LIKE containment
match, the id fields are exact matches. -/
def prodMatches (c : ProductListModel) (r : Product) : Bool :=
  (match c.product_id with
   | none => true
   | some pid => r.product_id == pid) &&
  (match c.product_name with
   | none => true
   | some nm => likeContains r.product_name nm) &&
  (match c.category_id with
   | none => true
   | some cid => r.category_id == some cid) &&
  (match c.brand_id with
   | none => true
   | some bid => r.brand_id == some bid)

/-- GET /product (src/main.py, get_prod): filter, then OFFSET and LIMIT. -/
def get_prod (c : ProductListModel) (s : Store) : List Product :=
  applyPage c.offset c.limit (s.products.filter (prodMatches c))

/-- GET /product/id (src/main.py, get_prod_by_id): primary-key lookup,
404 when absent. -/
def get_prod_by_id (pid : Nat) (s : Store) : Except ApiError Product :=
  match s.products.find? (fun r => r.product_id == pid) with
  | none => .error (.httpError 404 "Product not found.")
  | some r => .ok r

/-- POST /product (src/main.py, insert_prod): validates category_id and
brand_id as foreign keys, then the name, then inserts a fresh row. -/
def insert_prod (item : ProductInsert) (s : Store) :
    Except ApiError Product × Store :=
  if categoryCount s item.category_id ≠ 1 then
    (.error (.httpError 404 "category_id is not valid."), s)
  else if brandCount s item.brand_id ≠ 1 then
    (.error (.httpError 404 "brand_id is not valid."), s)
  else if item.product_name.length ≤ 0 then
    (.error (.httpError 404 "product_name must not be empty."), s)
  else
    let product : Product :=
      { product_id := s.nextProductId
        product_name := item.product_name
        category_id := item.category_id
        brand_id := item.brand_id }
    (.ok product,
      { s with products := s.products ++ [product],
               nextProductId := s.nextProductId + 1 })

/-- PUT /product (src/main.py, update_prod): validates category_id, brand_id
and the name, then fetches the target row with `.one()`, which raises
`NoResultFound` or `MultipleResultsFound` (not an HTTPException) unless
exactly one row matches, and finally overwrites the three mutable fields. -/
def update_prod (item : ProductUpdate) (s : Store) :
    Except ApiError Product × Store :=
  if categoryCount s item.category_id ≠ 1 then
    (.error (.httpError 404 "category_id is not valid."), s)
  else if brandCount s item.brand_id ≠ 1 then
    (.error (.httpError 404 "brand_id is not valid."), s)
  else if item.product_name.length ≤ 0 then
    (.error (.httpError 404 "product_name must not be empty."), s)
  else
    match (s.products.filter (fun p => p.product_id == item.product_id)) with
    | [] => (.error .noResultFound, s)
    | [p0] =>
        let p1 : Product :=
          { p0 with product_name := item.product_name,
                    category_id := item.category_id,
                    brand_id := item.brand_id }
        let upd : Product → Product := fun p =>
          { p with product_name := item.product_name,
                   category_id := item.category_id,
                   brand_id := item.brand_id }
        let prods1 :=
          updateFirst (fun p => p.product_id == item.product_id) upd s.products
        (.ok p1, { s with products := prods1 })
    | _ :: _ :: _ => (.error .multipleResultsFound, s)

/-- DELETE /product (src/main.py, delete_prod): primary-key lookup, 404 when
absent, otherwise deletes the product; the ORM cascade configured in
src/Models/Models.py also removes the sales and inventory rows of that
product. -/
def delete_prod (pid : Nat) (s : Store) : Except ApiError Unit × Store :=
  match s.products.find? (fun p => p.product_id == pid) with
  | none => (.error (.httpError 404 "product_id is not valid."), s)
  | some p0 =>
      (.ok (),
        { s with products := s.products.erase p0,
                 sales := s.sales.filter (fun x => !(x.product_id == pid)),
                 inventory :=
                   s.inventory.filter (fun x => !(x.product_id == pid)) })

/-- GET /category (src/main.py, get_category): returns every category. -/
def get_category (s : Store) : List Category :=
  s.categories

/-- GET /category/id (src/main.py, get_category_by_id). -/
def get_category_by_id (cid : Nat) (s : Store) : Except ApiError Category :=
  match s.categories.find? (fun c => c.category_id == cid) with
  | none => .error (.httpError 404 "Category id is not valid.")
  | some c => .ok c

/-- POST /category (src/main.py, add_category): rejects an empty name, then
inserts a fresh row. -/
def add_category (item : CategoryDataModel) (s : Store) :
    Except ApiError Category × Store :=
  if item.category_name.length ≤ 0 then
    (.error (.httpError 404 "category_name must not be empty."), s)
  else
    let category : Category :=
      { category_id := s.nextCategoryId, category_name := item.category_name }
    (.ok category,
      { s with categories := s.categories ++ [category],
               nextCategoryId := s.nextCategoryId + 1 })

/-- PUT /category/id (src/main.py, update_category): rejects an empty name,
404 when the target id is absent, otherwise overwrites the name. -/
def update_category (cid : Nat) (item : CategoryDataModel) (s : Store) :
    Except ApiError Category × Store :=
  if item.category_name.length ≤ 0 then
    (.error (.httpError 404 "category_name must not be empty."), s)
  else
    match s.categories.find? (fun c => c.category_id == cid) with
    | none => (.error (.httpError 404 "category_id is not valid."), s)
    | some c0 =>
        let c1 : Category := { c0 with category_name := item.category_name }
        let upd : Category → Category := fun c =>
          { c with category_name := item.category_name }
        let cats1 :=
          updateFirst (fun c => c.category_id == cid) upd s.categories
        (.ok c1, { s with categories := cats1 })

/-- DELETE /category/id (src/main.py, delete_category): 404 when the target
id is absent, otherwise deletes the category; the configured cascade also
removes the products of that category together with their sales and
inventory rows. -/
def delete_category (cid : Nat) (s : Store) : Except ApiError Unit × Store :=
  match s.categories.find? (fun c => c.category_id == cid) with
  | none => (.error (.httpError 404 "category_id is not valid."), s)
  | some c0 =>
      let dead : Nat → Bool := fun pid =>
        s.products.any (fun p => p.category_id == some cid && p.product_id == pid)
      (.ok (),
        { s with categories := s.categories.erase c0,
                 products :=
                   s.products.filter (fun p => !(p.category_id == some cid)),
                 sales := s.sales.filter (fun x => !(dead x.product_id)),
                 inventory :=
                   s.inventory.filter (fun x => !(dead x.product_id)) })

/-- GET /brand (src/main.py, get_brand): returns every brand. -/
def get_brand (s : Store) : List Brand :=
  s.brands

/-- GET /brand/id (src/main.py, get_brand_by_id). -/
def get_brand_by_id (bid : Nat) (s : Store) : Except ApiError Brand :=
  match s.brands.find? (fun b => b.brand_id == bid) with
  | none => .error (.httpError 404 "brand_id is not valid.")
  | some b => .ok b

/-- POST /brand (src/main.py, add_brand): rejects an empty name, then
inserts a fresh row. -/
def add_brand (item : BrandDataModel) (s : Store) :
    Except ApiError Brand × Store :=
  if item.brand_name.length ≤ 0 then
    (.error (.httpError 404 "brand_name must not be empty."), s)
  else
    let brand : Brand :=
      { brand_id := s.nextBrandId, brand_name := item.brand_name }
    (.ok brand,
      { s with brands := s.brands ++ [brand],
               nextBrandId := s.nextBrandId + 1 })

/-- PUT /brand/id (src/main.py, update_brand): rejects an empty name,
404 when the target id is absent, otherwise overwrites the name. -/
def update_brand (bid : Nat) (item : BrandDataModel) (s : Store) :
    Except ApiError Brand × Store :=
  if item.brand_name.length ≤ 0 then
    (.error (.httpError 404 "brand_name must not be empty."), s)
  else
    match s.brands.find? (fun b => b.brand_id == bid) with
    | none => (.error (.httpError 404 "brand_id is not valid."), s)
    | some b0 =>
        let b1 : Brand := { b0 with brand_name := item.brand_name }
        let upd : Brand → Brand := fun b =>
          { b with brand_name := item.brand_name }
        let brands1 := updateFirst (fun b => b.brand_id == bid) upd s.brands
        (.ok b1, { s with brands := brands1 })

/-- DELETE /brand/id (src/main.py, delete_brand): 404 when the target id is
absent, otherwise deletes the brand; the configured cascade also removes the
products of that brand together with their sales and inventory rows. -/
def delete_brand (bid : Nat) (s : Store) : Except ApiError Unit × Store :=
  match s.brands.find? (fun b => b.brand_id == bid) with
  | none => (.error (.httpError 404 "brand_id is not valid."), s)
  | some b0 =>
      let dead : Nat → Bool := fun pid =>
        s.products.any (fun p => p.brand_id == some bid && p.product_id == pid)
      (.ok (),
        { s with brands := s.brands.erase b0,
                 products :=
                   s.products.filter (fun p => !(p.brand_id == some bid)),
                 sales := s.sales.filter (fun x => !(dead x.product_id)),
                 inventory :=
                   s.inventory.filter (fun x => !(dead x.product_id)) })

/-- WHERE clause of GET /sales (src/main.py, get_sales lines 412 to 414):
unset fields are pass-through, set fields are exact matches. -/
def saleMatches (c : SalesListModel) (r : Sale) : Bool :=
  (match c.product_id with
   | none => true
   | some pid => pid == r.product_id) &&
  (match c.platform_id with
   | none => true
   | some pid => pid == r.platform_id) &&
  (match c.sale_date with
   | none => true
   | some d => d == r.sale_date)

/-- GET /sales (src/main.py, get_sales): filter, then OFFSET and LIMIT. -/
def get_sales (c : SalesListModel) (s : Store) : List Sale :=
  applyPage c.offset c.limit (s.sales.filter (saleMatches c))

/-- GET /sale/id (src/main.py, get_sale_by_id). -/
def get_sale_by_id (sid : Nat) (s : Store) : Except ApiError Sale :=
  match s.sales.find? (fun x => x.sale_id == sid) with
  | none => .error (.httpError 404 "sale_id is not valid.")
  | some x => .ok x

/-- POST /sale (src/main.py, add_sale): validates product_id and platform_id
as foreign keys, then quantity_sold and sale_price, then inserts a fresh
row. -/
def add_sale (item : SalesDataModel) (s : Store) :
    Except ApiError Sale × Store :=
  if prodCount s item.product_id ≠ 1 then
    (.error (.httpError 404 "product_id is not valid."), s)
  else if platformCount s item.platform_id ≠ 1 then
    (.error (.httpError 404 "platform_id is not valid."), s)
  else if item.quantity_sold ≤ 0 then
    (.error (.httpError 404 "quantity_sold must be greater than zero."), s)
  else if item.sale_price < 0 then
    (.error (.httpError 404 "sale_price can not be a negitive number."), s)
  else
    let sale : Sale :=
      { sale_id := s.nextSaleId
        product_id := item.product_id
        platform_id := item.platform_id
        sale_date := item.sale_date
        quantity_sold := item.quantity_sold
        sale_price := item.sale_price }
    (.ok sale,
      { s with sales := s.sales ++ [sale], nextSaleId := s.nextSaleId + 1 })

/-- PUT /sale/id (src/main.py, update_sale): same field validations as
add_sale, then 404 when the target sale_id is absent, otherwise overwrites
every mutable field. -/
def update_sale (sid : Nat) (item : SalesDataModel) (s : Store) :
    Except ApiError Sale × Store :=
  if prodCount s item.product_id ≠ 1 then
    (.error (.httpError 404 "product_id is not valid."), s)
  else if platformCount s item.platform_id ≠ 1 then
    (.error (.httpError 404 "platform_id is not valid."), s)
  else if item.quantity_sold ≤ 0 then
    (.error (.httpError 404 "quantity_sold must be greater than zero."), s)
  else if item.sale_price < 0 then
    (.error (.httpError 404 "sale_price can not be a negitive number."), s)
  else
    match s.sales.find? (fun x => x.sale_id == sid) with
    | none => (.error (.httpError 404 "sale_id is not valid."), s)
    | some x0 =>
        let x1 : Sale :=
          { x0 with product_id := item.product_id,
                    platform_id := item.platform_id,
                    sale_date := item.sale_date,
                    quantity_sold := item.quantity_sold,
                    sale_price := item.sale_price }
        let upd : Sale → Sale := fun x =>
          { x with product_id := item.product_id,
                   platform_id := item.platform_id,
                   sale_date := item.sale_date,
                   quantity_sold := item.quantity_sold,
                   sale_price := item.sale_price }
        let sales1 := updateFirst (fun x => x.sale_id == sid) upd s.sales
        (.ok x1, { s with sales := sales1 })

/-- DELETE /sale/id (src/main.py, delete_sale): 404 when the target id is
absent, otherwise deletes the sale. -/
def delete_sale (sid : Nat) (s : Store) : Except ApiError Unit × Store :=
  match s.sales.find? (fun x => x.sale_id == sid) with
  | none => (.error (.httpError 404 "sale_id is not valid."), s)
  | some x0 => (.ok (), { s with sales := s.sales.erase x0 })

/-- One request to any endpoint of the service, with its inputs. -/
inductive Op where
  | opGetInv (c : InvListModel)
  | opGetInvById (i : Nat)
  | opUpdateInv (x : InvUpdate) (now : Nat)
  | opDeleteInv (x : InvDelete)
  | opGetProd (c : ProductListModel)
  | opGetProdById (i : Nat)
  | opInsertProd (x : ProductInsert)
  | opUpdateProd (x : ProductUpdate)
  | opDeleteProd (i : Nat)
  | opGetCategory
  | opGetCategoryById (i : Nat)
  | opAddCategory (x : CategoryDataModel)
  | opUpdateCategory (i : Nat) (x : CategoryDataModel)
  | opDeleteCategory (i : Nat)
  | opGetBrand
  | opGetBrandById (i : Nat)
  | opAddBrand (x : BrandDataModel)
  | opUpdateBrand (i : Nat) (x : BrandDataModel)
  | opDeleteBrand (i : Nat)
  | opGetSales (c : SalesListModel)
  | opGetSaleById (i : Nat)
  | opAddSale (x : SalesDataModel)
  | opUpdateSale (i : Nat) (x : SalesDataModel)
  | opDeleteSale (i : Nat)
deriving Repr

/-- The state transition a request performs: the post-state of the handler
(read-only endpoints leave the store unchanged, and a handler that raises
before committing returns the unchanged store). -/
def applyOp (s : Store) : Op → Store
  | .opGetInv _ => s
  | .opGetInvById _ => s
  | .opUpdateInv x now => (update_inv x now s).2
  | .opDeleteInv x => (delete_inv x s).2
  | .opGetProd _ => s
  | .opGetProdById _ => s
  | .opInsertProd x => (insert_prod x s).2
  | .opUpdateProd x => (update_prod x s).2
  | .opDeleteProd i => (delete_prod i s).2
  | .opGetCategory => s
  | .opGetCategoryById _ => s
  | .opAddCategory x => (add_category x s).2
  | .opUpdateCategory i x => (update_category i x s).2
  | .opDeleteCategory i => (delete_category i s).2
  | .opGetBrand => s
  | .opGetBrandById _ => s
  | .opAddBrand x => (add_brand x s).2
  | .opUpdateBrand i x => (update_brand i x s).2
  | .opDeleteBrand i => (delete_brand i s).2
  | .opGetSales _ => s
  | .opGetSaleById _ => s
  | .opAddSale x => (add_sale x s).2
  | .opUpdateSale i x => (update_sale i x s).2
  | .opDeleteSale i => (delete_sale i s).2

/-- Run a sequence of requests from left to right. -/
def applyOps (s : Store) (ops : List Op) : Store :=
  ops.foldl applyOp s

/-- Key-distinctness relation between two inventory rows: they differ on
the logical unique key `(product_id, platform_id)`. -/
def invKeyR (a b : Inventory) : Prop :=
  a.product_id ≠ b.product_id ∨ a.platform_id ≠ b.platform_id

/-- The logical unique key of the inventory table: no two rows share the
same `(product_id, platform_id)` pair. -/
def InvKeyUnique (s : Store) : Prop :=
  s.inventory.Pairwise invKeyR

/-- Specification-side reading of substring containment: the characters of
the needle occur contiguously inside the characters of the haystack. -/
def specSubstring (hay needle : String) : Prop :=
  ∃ pre post, hay.data = pre ++ needle.data ++ post

/-- Specification-side reading of the inventory filter (spec section 4.4):
unset fields impose no constraint, set identity fields match by exact
equality, set stock bounds apply inclusively. -/
def InvFilterSpec (c : InvListModel) (r : Inventory) : Prop :=
  (c.product_id = none ∨ c.product_id = some r.product_id) ∧
  (c.platform_id = none ∨ c.platform_id = some r.platform_id) ∧
  (c.min_stock_quantity = none ∨
    ∃ m, c.min_stock_quantity = some m ∧ m ≤ r.stock_quantity) ∧
  (c.max_stock_quantity = none ∨
    ∃ m, c.max_stock_quantity = some m ∧ r.stock_quantity ≤ m)

/-- Declarative semantics of the sqlite LIKE operator: `%` absorbs any
sequence of text characters, `_` absorbs exactly one, and any other
pattern character matches one text character up to ASCII case folding. -/
inductive LikeMatches : List Char → List Char → Prop where
  | nil : LikeMatches [] []
  | pctSkip (ps t : List Char) :
      LikeMatches ps t → LikeMatches ('%' :: ps) t
  | pctTake (ps : List Char) (c : Char) (t : List Char) :
      LikeMatches ('%' :: ps) t → LikeMatches ('%' :: ps) (c :: t)
  | one (ps : List Char) (c : Char) (t : List Char) :
      LikeMatches ps t → LikeMatches ('_' :: ps) (c :: t)
  | char (p : Char) (ps : List Char) (c : Char) (t : List Char) :
      p ≠ '%' → p ≠ '_' → asciiLower p = asciiLower c →
      LikeMatches ps t → LikeMatches (p :: ps) (c :: t)

/-- Specification-side reading of the amended product filter: unset fields
impose no constraint, identity fields match by exact equality, and a set
product_name filter value x matches a name exactly when the LIKE pattern
`'%' || x || '%'` matches it. -/
def ProductFilterSpec (c : ProductListModel) (r : Product) : Prop :=
  (c.product_id = none ∨ c.product_id = some r.product_id) ∧
  (c.product_name = none ∨
    ∃ nm, c.product_name = some nm ∧
      LikeMatches ('%' :: (nm.data ++ ['%'])) r.product_name.data) ∧
  (c.category_id = none ∨ ∃ cid, c.category_id = some cid ∧
    r.category_id = some cid) ∧
  (c.brand_id = none ∨ ∃ bid, c.brand_id = some bid ∧ r.brand_id = some bid)

/-- Specification-side reading of the sales filter (spec section 4.4):
unset fields impose no constraint, set identity and date fields match by
exact equality. -/
def SaleFilterSpec (c : SalesListModel) (r : Sale) : Prop :=
  (c.product_id = none ∨ c.product_id = some r.product_id) ∧
  (c.platform_id = none ∨ c.platform_id = some r.platform_id) ∧
  (c.sale_date = none ∨ c.sale_date = some r.sale_date)

/-- Small concrete database: one category, one brand, one platform, one
product referencing both, no sales and no inventory rows. -/
def exampleStore : Store :=
  { categories := [{ category_id := 1, category_name := "Toys" }]
    brands := [{ brand_id := 1, brand_name := "Acme" }]
    platforms := [{ platform_id := 1, platform_name := "Web" }]
    products := [{ product_id := 1, product_name := "Robot",
                   category_id := some 1, brand_id := some 1 }]
    sales := []
    inventory := []
    nextCategoryId := 2
    nextBrandId := 2
    nextProductId := 2
    nextSaleId := 1
    nextInventoryId := 2 }

/-- The same concrete database with one inventory row for product 1 on
platform 1. -/
def exampleStoreInv : Store :=
  { exampleStore with
      inventory := [{ inventory_id := 1, product_id := 1, platform_id := 1,
                      stock_quantity := 5, last_updated := 0 }],
      nextInventoryId := 2 }

/-- The same concrete database with one sale row for product 1 on
platform 1. -/
def exampleStoreSale : Store :=
  { exampleStore with
      sales := [{ sale_id := 1, product_id := 1, platform_id := 1,
                  sale_date := 10, quantity_sold := 2, sale_price := 7 }],
      nextSaleId := 2 }

theorem startsWithChars_iff (n h : List Char) :
    startsWithChars h n = true ↔ ∃ rest, h = n ++ rest := by
  induction n generalizing h with
  | nil => simp [startsWithChars]
  | cons c cs ih =>
      cases h with
      | nil => simp [startsWithChars]
      | cons d ds =>
          simp only [startsWithChars, Bool.and_eq_true, beq_iff_eq, ih]
          constructor
          · rintro ⟨rfl, rest, rfl⟩
            exact ⟨rest, rfl⟩
          · rintro ⟨rest, hres⟩
            simp only [List.cons_append, List.cons.injEq] at hres
            exact ⟨hres.1, rest, hres.2⟩

theorem containsSub_iff (h n : List Char) :
    containsSub h n = true ↔ ∃ pre post, h = pre ++ n ++ post := by
  induction h with
  | nil =>
      rw [containsSub]
      by_cases hs : startsWithChars [] n = true
      · obtain ⟨rest, hrest⟩ := (startsWithChars_iff n []).mp hs
        have hn : n = [] ∧ rest = [] := by
          have hx := hrest.symm
          simpa using hx
        simp only [hs, if_true, true_iff]
        exact ⟨[], [], by simp [hn.1]⟩
      · simp only [Bool.not_eq_true] at hs
        simp only [hs, Bool.false_eq_true, if_false, false_iff]
        rintro ⟨pre, post, hpp⟩
        have hx := hpp.symm
        simp only [List.append_assoc, List.append_eq_nil] at hx
        have : startsWithChars ([] : List Char) n = true := by
          rw [startsWithChars_iff]
          exact ⟨[], by simp [hx.2.1]⟩
        rw [this] at hs
        exact absurd hs (by simp)
  | cons d ds ih =>
      rw [containsSub]
      by_cases hs : startsWithChars (d :: ds) n = true
      · obtain ⟨rest, hrest⟩ := (startsWithChars_iff n (d :: ds)).mp hs
        simp only [hs, if_true, true_iff]
        exact ⟨[], rest, by simp [hrest]⟩
      · simp only [Bool.not_eq_true] at hs
        simp only [hs, Bool.false_eq_true, if_false, ih]
        constructor
        · rintro ⟨pre, post, hpp⟩
          exact ⟨d :: pre, post, by simp [hpp]⟩
        · rintro ⟨pre, post, hpp⟩
          cases pre with
          | nil =>
              exfalso
              have hst : startsWithChars (d :: ds) n = true := by
                rw [startsWithChars_iff]
                exact ⟨post, by simpa using hpp⟩
              rw [hst] at hs
              exact absurd hs (by simp)
          | cons e es =>
              simp only [List.cons_append, List.cons.injEq] at hpp
              exact ⟨es, post, hpp.2⟩

theorem find?_append_of_none {α : Type} (p : α → Bool) (l1 l2 : List α)
    (h : l1.find? p = none) : (l1 ++ l2).find? p = l2.find? p := by
  induction l1 with
  | nil => rfl
  | cons x xs ih =>
      simp only [List.find?_cons] at h
      simp only [List.cons_append, List.find?_cons]
      cases hx : p x with
      | true => simp [hx] at h
      | false =>
          simp only [hx] at h ⊢
          exact ih h

theorem mem_of_mem_applyPage {α : Type} (off lim : Int) (l : List α) (x : α)
    (h : x ∈ applyPage off lim l) : x ∈ l := by
  unfold applyPage at h
  by_cases hl : lim < 0
  · simp only [hl, if_true] at h
    exact List.mem_of_mem_drop h
  · simp only [hl, if_false] at h
    exact List.mem_of_mem_drop (List.mem_of_mem_take h)

theorem updateFirst_of_none {α : Type} (p : α → Bool) (f : α → α)
    (l : List α) (h : l.find? p = none) : updateFirst p f l = l := by
  induction l with
  | nil => rfl
  | cons x xs ih =>
      simp only [List.find?_cons] at h
      cases hx : p x with
      | true => simp [hx] at h
      | false =>
          simp only [hx] at h
          simp [updateFirst, hx, ih h]

theorem updateFirst_append_of_none {α : Type} (p : α → Bool) (f : α → α)
    (l1 l2 : List α) (h : l1.find? p = none) :
    updateFirst p f (l1 ++ l2) = l1 ++ updateFirst p f l2 := by
  induction l1 with
  | nil => rfl
  | cons x xs ih =>
      simp only [List.find?_cons] at h
      cases hx : p x with
      | true => simp [hx] at h
      | false =>
          simp only [hx] at h
          simp [updateFirst, hx, ih h]

theorem find?_updateFirst {α : Type} (p : α → Bool) (f : α → α)
    (l : List α) (x : α) (hfind : l.find? p = some x)
    (hfx : p (f x) = true) :
    (updateFirst p f l).find? p = some (f x) := by
  induction l with
  | nil => simp at hfind
  | cons y ys ih =>
      simp only [List.find?_cons] at hfind
      cases hy : p y with
      | true =>
          simp only [hy] at hfind
          cases hfind
          simp [updateFirst, hy, List.find?_cons, hfx]
      | false =>
          simp only [hy] at hfind
          simp [updateFirst, hy, List.find?_cons, ih hfind]

theorem updateFirst_congr_of_find? {α : Type} (p : α → Bool) (f g : α → α)
    (l : List α) (x : α) (hfind : l.find? p = some x) (hfg : f x = g x) :
    updateFirst p f l = updateFirst p g l := by
  induction l with
  | nil => rfl
  | cons y ys ih =>
      simp only [List.find?_cons] at hfind
      cases hy : p y with
      | true =>
          simp only [hy] at hfind
          cases hfind
          simp [updateFirst, hy, hfg]
      | false =>
          simp only [hy] at hfind
          simp [updateFirst, hy, ih hfind]

theorem mem_updateFirst {α : Type} (p : α → Bool) (f : α → α)
    (l : List α) (b : α) (h : b ∈ updateFirst p f l) :
    b ∈ l ∨ ∃ a ∈ l, b = f a := by
  induction l with
  | nil => simp [updateFirst] at h
  | cons x xs ih =>
      simp only [updateFirst] at h
      by_cases hx : p x = true
      · simp only [hx, if_true, List.mem_cons] at h
        rcases h with h | h
        · exact Or.inr ⟨x, List.mem_cons_self x xs, h⟩
        · exact Or.inl (List.mem_cons_of_mem x h)
      · simp only [hx, Bool.false_eq_true, if_false, List.mem_cons] at h
        rcases h with h | h
        · exact Or.inl (h ▸ List.mem_cons_self x xs)
        · rcases ih h with h2 | ⟨a, ha, hb⟩
          · exact Or.inl (List.mem_cons_of_mem x h2)
          · exact Or.inr ⟨a, List.mem_cons_of_mem x ha, hb⟩

theorem pairwise_invKeyR_updateFirst (p : Inventory → Bool)
    (f : Inventory → Inventory)
    (hf : ∀ r, (f r).product_id = r.product_id ∧
               (f r).platform_id = r.platform_id)
    (l : List Inventory) (h : l.Pairwise invKeyR) :
    (updateFirst p f l).Pairwise invKeyR := by
  induction l with
  | nil => exact List.Pairwise.nil
  | cons x xs ih =>
      rcases h with _ | ⟨hx, hxs⟩
      simp only [updateFirst]
      by_cases hp : p x = true
      · simp only [hp, if_true]
        refine List.Pairwise.cons ?_ hxs
        intro b hb
        have := hx b hb
        unfold invKeyR at this ⊢
        rcases this with h1 | h2
        · exact Or.inl (by rw [(hf x).1]; exact h1)
        · exact Or.inr (by rw [(hf x).2]; exact h2)
      · simp only [hp, if_false]
        refine List.Pairwise.cons ?_ (ih hxs)
        intro b hb
        rcases mem_updateFirst p f xs b hb with hmem | ⟨a, ha, hba⟩
        · exact hx b hmem
        · have := hx a ha
          unfold invKeyR at this ⊢
          subst hba
          rcases this with h1 | h2
          · exact Or.inl (by rw [(hf a).1]; exact h1)
          · exact Or.inr (by rw [(hf a).2]; exact h2)

theorem invKeyR_of_not_matches (pid plid : Nat) (a new : Inventory)
    (hnew : new.product_id = pid ∧ new.platform_id = plid)
    (ha : ¬ invKeyMatches pid plid a = true) : invKeyR a new := by
  unfold invKeyMatches at ha
  unfold invKeyR
  simp only [Bool.and_eq_true, beq_iff_eq, not_and_or] at ha
  rcases ha with h1 | h2
  · exact Or.inr (by rw [hnew.2]; exact h1)
  · exact Or.inl (by rw [hnew.1]; exact h2)

theorem invKeyUnique_update_inv (item : InvUpdate) (now : Nat) (s : Store)
    (h : InvKeyUnique s) : InvKeyUnique (update_inv item now s).2 := by
  unfold update_inv
  by_cases h1 : prodCount s item.product_id ≠ 1
  · rw [if_pos h1]; exact h
  · rw [if_neg h1]
    by_cases h2 : platformCount s item.platform_id ≠ 1
    · rw [if_pos h2]; exact h
    · rw [if_neg h2]
      by_cases h3 : item.stock_quantity < 0
      · rw [if_pos h3]; exact h
      · rw [if_neg h3]
        cases hfind :
            s.inventory.find?
              (invKeyMatches item.product_id item.platform_id) with
        | none =>
            show InvKeyUnique { s with
              inventory := s.inventory ++
                [{ inventory_id := s.nextInventoryId,
                   product_id := item.product_id,
                   platform_id := item.platform_id,
                   stock_quantity := item.stock_quantity,
                   last_updated := now }],
              nextInventoryId := s.nextInventoryId + 1 }
            unfold InvKeyUnique at h ⊢
            rw [List.pairwise_append]
            refine ⟨h, List.pairwise_singleton _ _, ?_⟩
            intro a ha b hb
            rw [List.mem_singleton] at hb
            subst hb
            have hnm := List.find?_eq_none.mp hfind a ha
            exact invKeyR_of_not_matches item.product_id item.platform_id a _
              ⟨rfl, rfl⟩ hnm
        | some r0 =>
            show List.Pairwise invKeyR
              (updateFirst (invKeyMatches item.product_id item.platform_id)
                (fun r => { r with stock_quantity := item.stock_quantity,
                                   last_updated := now })
                s.inventory)
            exact pairwise_invKeyR_updateFirst
              (invKeyMatches item.product_id item.platform_id)
              (fun r => { r with stock_quantity := item.stock_quantity,
                                 last_updated := now })
              (fun r => ⟨rfl, rfl⟩) s.inventory h

theorem invKeyUnique_of_sublist (l1 l2 : List Inventory)
    (hsub : l1.Sublist l2) (h : l2.Pairwise invKeyR) : l1.Pairwise invKeyR :=
  h.sublist hsub

theorem invKeyUnique_delete_inv (item : InvDelete) (s : Store)
    (h : InvKeyUnique s) : InvKeyUnique (delete_inv item s).2 := by
  unfold delete_inv
  by_cases h1 : prodCount s item.product_id ≠ 1
  · rw [if_pos h1]; exact h
  · rw [if_neg h1]
    by_cases h2 : platformCount s item.platform_id ≠ 1
    · rw [if_pos h2]; exact h
    · rw [if_neg h2]
      cases hfind :
          s.inventory.find?
            (invKeyMatches item.product_id item.platform_id) with
      | none => exact h
      | some r0 =>
          show InvKeyUnique { s with inventory := s.inventory.erase r0 }
          exact invKeyUnique_of_sublist _ _ (List.erase_sublist r0 s.inventory) h

theorem invKeyUnique_applyOp (s : Store) (op : Op) (h : InvKeyUnique s) :
    InvKeyUnique (applyOp s op) := by
  cases op with
  | opGetInv c => exact h
  | opGetInvById i => exact h
  | opUpdateInv x now => exact invKeyUnique_update_inv x now s h
  | opDeleteInv x => exact invKeyUnique_delete_inv x s h
  | opGetProd c => exact h
  | opGetProdById i => exact h
  | opInsertProd x =>
      show InvKeyUnique (insert_prod x s).2
      unfold insert_prod
      by_cases h1 : categoryCount s x.category_id ≠ 1
      · rw [if_pos h1]; exact h
      · rw [if_neg h1]
        by_cases h2 : brandCount s x.brand_id ≠ 1
        · rw [if_pos h2]; exact h
        · rw [if_neg h2]
          by_cases h3 : x.product_name.length ≤ 0
          · rw [if_pos h3]; exact h
          · rw [if_neg h3]; exact h
  | opUpdateProd x =>
      show InvKeyUnique (update_prod x s).2
      unfold update_prod
      by_cases h1 : categoryCount s x.category_id ≠ 1
      · rw [if_pos h1]; exact h
      · rw [if_neg h1]
        by_cases h2 : brandCount s x.brand_id ≠ 1
        · rw [if_pos h2]; exact h
        · rw [if_neg h2]
          by_cases h3 : x.product_name.length ≤ 0
          · rw [if_pos h3]; exact h
          · rw [if_neg h3]
            cases hfilter :
                s.products.filter (fun p => p.product_id == x.product_id) with
            | nil => exact h
            | cons p0 rest =>
                cases rest with
                | nil => exact h
                | cons p1 rest2 => exact h
  | opDeleteProd i =>
      show InvKeyUnique (delete_prod i s).2
      unfold delete_prod
      cases hfind : s.products.find? (fun p => p.product_id == i) with
      | none => exact h
      | some p0 =>
          show InvKeyUnique { s with
            products := s.products.erase p0,
            sales := s.sales.filter (fun x => !(x.product_id == i)),
            inventory := s.inventory.filter (fun x => !(x.product_id == i)) }
          exact invKeyUnique_of_sublist _ _ (List.filter_sublist s.inventory) h
  | opGetCategory => exact h
  | opGetCategoryById i => exact h
  | opAddCategory x =>
      show InvKeyUnique (add_category x s).2
      unfold add_category
      by_cases h1 : x.category_name.length ≤ 0
      · rw [if_pos h1]; exact h
      · rw [if_neg h1]; exact h
  | opUpdateCategory i x =>
      show InvKeyUnique (update_category i x s).2
      unfold update_category
      by_cases h1 : x.category_name.length ≤ 0
      · rw [if_pos h1]; exact h
      · rw [if_neg h1]
        cases hfind : s.categories.find? (fun c => c.category_id == i) with
        | none => exact h
        | some c0 => exact h
  | opDeleteCategory i =>
      show InvKeyUnique (delete_category i s).2
      unfold delete_category
      cases hfind : s.categories.find? (fun c => c.category_id == i) with
      | none => exact h
      | some c0 =>
          exact invKeyUnique_of_sublist _ _ (List.filter_sublist s.inventory) h
  | opGetBrand => exact h
  | opGetBrandById i => exact h
  | opAddBrand x =>
      show InvKeyUnique (add_brand x s).2
      unfold add_brand
      by_cases h1 : x.brand_name.length ≤ 0
      · rw [if_pos h1]; exact h
      · rw [if_neg h1]; exact h
  | opUpdateBrand i x =>
      show InvKeyUnique (update_brand i x s).2
      unfold update_brand
      by_cases h1 : x.brand_name.length ≤ 0
      · rw [if_pos h1]; exact h
      · rw [if_neg h1]
        cases hfind : s.brands.find? (fun b => b.brand_id == i) with
        | none => exact h
        | some b0 => exact h
  | opDeleteBrand i =>
      show InvKeyUnique (delete_brand i s).2
      unfold delete_brand
      cases hfind : s.brands.find? (fun b => b.brand_id == i) with
      | none => exact h
      | some b0 =>
          exact invKeyUnique_of_sublist _ _ (List.filter_sublist s.inventory) h
  | opGetSales c => exact h
  | opGetSaleById i => exact h
  | opAddSale x =>
      show InvKeyUnique (add_sale x s).2
      unfold add_sale
      by_cases h1 : prodCount s x.product_id ≠ 1
      · rw [if_pos h1]; exact h
      · rw [if_neg h1]
        by_cases h2 : platformCount s x.platform_id ≠ 1
        · rw [if_pos h2]; exact h
        · rw [if_neg h2]
          by_cases h3 : x.quantity_sold ≤ 0
          · rw [if_pos h3]; exact h
          · rw [if_neg h3]
            by_cases h4 : x.sale_price < 0
            · rw [if_pos h4]; exact h
            · rw [if_neg h4]; exact h
  | opUpdateSale i x =>
      show InvKeyUnique (update_sale i x s).2
      unfold update_sale
      by_cases h1 : prodCount s x.product_id ≠ 1
      · rw [if_pos h1]; exact h
      · rw [if_neg h1]
        by_cases h2 : platformCount s x.platform_id ≠ 1
        · rw [if_pos h2]; exact h
        · rw [if_neg h2]
          by_cases h3 : x.quantity_sold ≤ 0
          · rw [if_pos h3]; exact h
          · rw [if_neg h3]
            by_cases h4 : x.sale_price < 0
            · rw [if_pos h4]; exact h
            · rw [if_neg h4]
              cases hfind : s.sales.find? (fun y => y.sale_id == i) with
              | none => exact h
              | some y0 => exact h
  | opDeleteSale i =>
      show InvKeyUnique (delete_sale i s).2
      unfold delete_sale
      cases hfind : s.sales.find? (fun y => y.sale_id == i) with
      | none => exact h
      | some y0 => exact h

/-- C2: the state invariant that at most one inventory row exists per
`(product_id, platform_id)` pair is preserved by every operation of the
service: from any state satisfying it, any sequence of requests (inventory
upserts and deletes included) yields a state that still satisfies it. -/
theorem invKeyUnique_preserved (s : Store) (ops : List Op)
    (h : InvKeyUnique s) : InvKeyUnique (applyOps s ops) := by
  induction ops generalizing s with
  | nil => exact h
  | cons op rest ih => exact ih (applyOp s op) (invKeyUnique_applyOp s op h)

/-- Witness for `invKeyUnique_preserved`: a concrete run of two upserts and
a delete on the same key from a concrete store satisfying the invariant. -/
theorem invKeyUnique_preserved_witness :
    InvKeyUnique exampleStore ∧
    InvKeyUnique (applyOps exampleStore
      [Op.opUpdateInv { product_id := 1, platform_id := 1,
                        stock_quantity := 5 } 0,
       Op.opUpdateInv { product_id := 1, platform_id := 1,
                        stock_quantity := 3 } 1,
       Op.opDeleteInv { product_id := 1, platform_id := 1 }]) :=
  ⟨List.Pairwise.nil,
   invKeyUnique_preserved exampleStore _ List.Pairwise.nil⟩

/-- C3: a sale creation or inventory upsert whose product_id or platform_id
does not match exactly one existing row fails with a 404 error naming the
offending field and returns the store unchanged. -/
theorem fk_validation_rejects_unchanged (s : Store)
    (saleItem : SalesDataModel) (invItem : InvUpdate) (now : Nat) :
    (prodCount s saleItem.product_id ≠ 1 →
      add_sale saleItem s =
        (.error (.httpError 404 "product_id is not valid."), s)) ∧
    (prodCount s saleItem.product_id = 1 →
      platformCount s saleItem.platform_id ≠ 1 →
      add_sale saleItem s =
        (.error (.httpError 404 "platform_id is not valid."), s)) ∧
    (prodCount s invItem.product_id ≠ 1 →
      update_inv invItem now s =
        (.error (.httpError 404 "product_id is not valid."), s)) ∧
    (prodCount s invItem.product_id = 1 →
      platformCount s invItem.platform_id ≠ 1 →
      update_inv invItem now s =
        (.error (.httpError 404 "platform_id is not valid."), s)) := by
  refine ⟨?_, ?_, ?_, ?_⟩
  · intro h1
    unfold add_sale
    rw [if_pos h1]
  · intro h1 h2
    unfold add_sale
    rw [if_neg (fun hc => hc h1), if_pos h2]
  · intro h1
    unfold update_inv
    rw [if_pos h1]
  · intro h1 h2
    unfold update_inv
    rw [if_neg (fun hc => hc h1), if_pos h2]

/-- Witness for `fk_validation_rejects_unchanged`: product 99 and platform
99 do not exist in the concrete store, products 1 and platforms 1 do. -/
theorem fk_validation_rejects_unchanged_witness :
    prodCount exampleStore 99 ≠ 1 ∧
    prodCount exampleStore 1 = 1 ∧ platformCount exampleStore 99 ≠ 1 ∧
    add_sale { product_id := 99, platform_id := 1, sale_date := 0,
               quantity_sold := 1, sale_price := 0 } exampleStore =
      (.error (.httpError 404 "product_id is not valid."), exampleStore) ∧
    update_inv { product_id := 1, platform_id := 99, stock_quantity := 5 } 0
        exampleStore =
      (.error (.httpError 404 "platform_id is not valid."), exampleStore) :=
  ⟨by decide, by decide, by decide,
   (fk_validation_rejects_unchanged exampleStore
     { product_id := 99, platform_id := 1, sale_date := 0,
       quantity_sold := 1, sale_price := 0 }
     { product_id := 1, platform_id := 99, stock_quantity := 5 } 0).1
     (by decide),
   (fk_validation_rejects_unchanged exampleStore
     { product_id := 99, platform_id := 1, sale_date := 0,
       quantity_sold := 1, sale_price := 0 }
     { product_id := 1, platform_id := 99, stock_quantity := 5 } 0).2.2.2
     (by decide) (by decide)⟩

theorem string_length_zero_eq_empty (s : String) (h : s.length = 0) :
    s = "" := by
  cases s with
  | mk data =>
      cases data with
      | nil => rfl
      | cons c cs => simp [String.length] at h

theorem not_length_le_zero_of_ne_empty (s : String) (h : s ≠ "") :
    ¬ s.length ≤ 0 :=
  fun hle => h (string_length_zero_eq_empty s (Nat.le_zero.mp hle))

/-- C10 counterexample: the claimed contrast fails for Product update:
updating absent product id 3 with otherwise-valid fields does not fail with
a NotFound response; the handler fetches the target with one(), which
raises the uncaught NoResultFound exception instead. -/
theorem update_prod_breaks_notfound_contrast :
    update_prod { product_id := 3, product_name := "Widget",
                  category_id := some 1, brand_id := some 1 } exampleStore =
      (.error .noResultFound, exampleStore) ∧
    ApiError.noResultFound ≠
      ApiError.httpError 404 "Product not found." := by
  exact ⟨rfl, by decide⟩

/-- C10 amended: an inventory delete whose product_id and platform_id each
match exactly one row but whose `(product_id, platform_id)` pair matches no
inventory row succeeds silently and leaves the whole store unchanged; by
contrast, the get-by-id and delete handlers of the other entities, and the
Category, Brand and Sale update handlers (once their earlier field
validations pass), fail with a 404 on an absent target — with Product
update the one exception, raising the uncaught NoResultFound exception
there instead of a NotFound response. -/
theorem delete_inv_missing_row_silent (s : Store) (item : InvDelete)
    (cat : CategoryDataModel) (br : BrandDataModel)
    (saleItem : SalesDataModel) (prodItem : ProductUpdate)
    (hp : prodCount s item.product_id = 1)
    (hpl : platformCount s item.platform_id = 1)
    (hnone : s.inventory.find?
      (invKeyMatches item.product_id item.platform_id) = none)
    (hcat : cat.category_name ≠ "") (hbr : br.brand_name ≠ "")
    (hsp : prodCount s saleItem.product_id = 1)
    (hspl : platformCount s saleItem.platform_id = 1)
    (hsq : ¬ saleItem.quantity_sold ≤ 0) (hsn : ¬ saleItem.sale_price < 0)
    (hpc : categoryCount s prodItem.category_id = 1)
    (hpb : brandCount s prodItem.brand_id = 1)
    (hpn : prodItem.product_name ≠ "") :
    delete_inv item s = (.ok (), s) ∧
    (∀ i, s.products.find? (fun p => p.product_id == i) = none →
      get_prod_by_id i s = .error (.httpError 404 "Product not found.") ∧
      delete_prod i s =
        (.error (.httpError 404 "product_id is not valid."), s)) ∧
    (∀ i, s.categories.find? (fun c => c.category_id == i) = none →
      get_category_by_id i s =
        .error (.httpError 404 "Category id is not valid.") ∧
      update_category i cat s =
        (.error (.httpError 404 "category_id is not valid."), s) ∧
      delete_category i s =
        (.error (.httpError 404 "category_id is not valid."), s)) ∧
    (∀ i, s.brands.find? (fun b => b.brand_id == i) = none →
      get_brand_by_id i s =
        .error (.httpError 404 "brand_id is not valid.") ∧
      update_brand i br s =
        (.error (.httpError 404 "brand_id is not valid."), s) ∧
      delete_brand i s =
        (.error (.httpError 404 "brand_id is not valid."), s)) ∧
    (∀ i, s.sales.find? (fun x => x.sale_id == i) = none →
      get_sale_by_id i s =
        .error (.httpError 404 "sale_id is not valid.") ∧
      update_sale i saleItem s =
        (.error (.httpError 404 "sale_id is not valid."), s) ∧
      delete_sale i s =
        (.error (.httpError 404 "sale_id is not valid."), s)) ∧
    (s.products.filter
        (fun p => p.product_id == prodItem.product_id) = [] →
      update_prod prodItem s = (.error .noResultFound, s)) := by
  refine ⟨?_, ?_, ?_, ?_, ?_, ?_⟩
  · unfold delete_inv
    rw [if_neg (fun hc => hc hp), if_neg (fun hc => hc hpl), hnone]
  · intro i hi
    constructor
    · unfold get_prod_by_id
      rw [hi]
    · unfold delete_prod
      rw [hi]
  · intro i hi
    refine ⟨?_, ?_, ?_⟩
    · unfold get_category_by_id
      rw [hi]
    · unfold update_category
      rw [if_neg (not_length_le_zero_of_ne_empty _ hcat), hi]
    · unfold delete_category
      rw [hi]
  · intro i hi
    refine ⟨?_, ?_, ?_⟩
    · unfold get_brand_by_id
      rw [hi]
    · unfold update_brand
      rw [if_neg (not_length_le_zero_of_ne_empty _ hbr), hi]
    · unfold delete_brand
      rw [hi]
  · intro i hi
    refine ⟨?_, ?_, ?_⟩
    · unfold get_sale_by_id
      rw [hi]
    · unfold update_sale
      rw [if_neg (fun hc => hc hsp), if_neg (fun hc => hc hspl),
          if_neg hsq, if_neg hsn, hi]
    · unfold delete_sale
      rw [hi]
  · intro hfilter
    unfold update_prod
    rw [if_neg (fun hc => hc hpc), if_neg (fun hc => hc hpb),
        if_neg (not_length_le_zero_of_ne_empty _ hpn), hfilter]

/-- Witness for `delete_inv_missing_row_silent`: product 1 and platform 1
exist in the concrete store, the inventory table is empty, and id 99 is
absent from every table; product 3 is absent so its update raises
NoResultFound. -/
theorem delete_inv_missing_row_silent_witness :
    prodCount exampleStore 1 = 1 ∧ platformCount exampleStore 1 = 1 ∧
    delete_inv { product_id := 1, platform_id := 1 } exampleStore =
      (.ok (), exampleStore) ∧
    delete_prod 99 exampleStore =
      (.error (.httpError 404 "product_id is not valid."), exampleStore) ∧
    update_category 99 { category_name := "Games" } exampleStore =
      (.error (.httpError 404 "category_id is not valid."), exampleStore) ∧
    update_prod { product_id := 3, product_name := "Widget",
                  category_id := some 1, brand_id := some 1 } exampleStore =
      (.error .noResultFound, exampleStore) :=
  ⟨by decide, by decide,
   (delete_inv_missing_row_silent exampleStore
     { product_id := 1, platform_id := 1 } { category_name := "Games" }
     { brand_name := "Acme" }
     { product_id := 1, platform_id := 1, sale_date := 0,
       quantity_sold := 1, sale_price := 0 }
     { product_id := 3, product_name := "Widget", category_id := some 1,
       brand_id := some 1 }
     (by decide) (by decide) (by decide) (by decide) (by decide)
     (by decide) (by decide) (by decide) (by decide) (by decide)
     (by decide) (by decide)).1,
   ((delete_inv_missing_row_silent exampleStore
     { product_id := 1, platform_id := 1 } { category_name := "Games" }
     { brand_name := "Acme" }
     { product_id := 1, platform_id := 1, sale_date := 0,
       quantity_sold := 1, sale_price := 0 }
     { product_id := 3, product_name := "Widget", category_id := some 1,
       brand_id := some 1 }
     (by decide) (by decide) (by decide) (by decide) (by decide)
     (by decide) (by decide) (by decide) (by decide) (by decide)
     (by decide) (by decide)).2.1 99 (by decide)).2,
   ((delete_inv_missing_row_silent exampleStore
     { product_id := 1, platform_id := 1 } { category_name := "Games" }
     { brand_name := "Acme" }
     { product_id := 1, platform_id := 1, sale_date := 0,
       quantity_sold := 1, sale_price := 0 }
     { product_id := 3, product_name := "Widget", category_id := some 1,
       brand_id := some 1 }
     (by decide) (by decide) (by decide) (by decide) (by decide)
     (by decide) (by decide) (by decide) (by decide) (by decide)
     (by decide) (by decide)).2.2.1 99 (by decide)).2.1,
   (delete_inv_missing_row_silent exampleStore
     { product_id := 1, platform_id := 1 } { category_name := "Games" }
     { brand_name := "Acme" }
     { product_id := 1, platform_id := 1, sale_date := 0,
       quantity_sold := 1, sale_price := 0 }
     { product_id := 3, product_name := "Widget", category_id := some 1,
       brand_id := some 1 }
     (by decide) (by decide) (by decide) (by decide) (by decide)
     (by decide) (by decide) (by decide) (by decide) (by decide)
     (by decide) (by decide)).2.2.2.2.2 (by decide)⟩

/-- C5 counterexample: a product list request with `limit = 0` passes the
model validation (its limit field only carries the upper bound `le=100`),
so a request with `limit <= 0` is not rejected, contrary to the claim; the
sales list model behaves the same way. -/
theorem limit_zero_accepted_by_product_and_sales_lists :
    ProductListModel.validLimits { limit := 0 } = true ∧
    SalesListModel.validLimits { limit := 0 } = true := by
  constructor
  · rfl
  · rfl

/-- C5 amended: all three list models default to `offset = 0` and
`limit = 100`; the inventory list model rejects exactly the requests with
`limit <= 0` or `limit > 100`, while the product and sales list models
reject exactly the requests with `limit > 100` and accept `limit <= 0`. -/
theorem pagination_validation :
    (∀ m : InvListModel,
      m.validLimits = true ↔ 0 < m.limit ∧ m.limit ≤ 100) ∧
    (∀ m : ProductListModel, m.validLimits = true ↔ m.limit ≤ 100) ∧
    (∀ m : SalesListModel, m.validLimits = true ↔ m.limit ≤ 100) ∧
    ({} : InvListModel).offset = 0 ∧ ({} : InvListModel).limit = 100 ∧
    ({} : ProductListModel).offset = 0 ∧
    ({} : ProductListModel).limit = 100 ∧
    ({} : SalesListModel).offset = 0 ∧ ({} : SalesListModel).limit = 100 := by
  refine ⟨?_, ?_, ?_, rfl, rfl, rfl, rfl, rfl, rfl⟩
  · intro m
    unfold InvListModel.validLimits
    simp [Bool.and_eq_true, decide_eq_true_eq]
  · intro m
    unfold ProductListModel.validLimits
    simp [decide_eq_true_eq]
  · intro m
    unfold SalesListModel.validLimits
    simp [decide_eq_true_eq]

/-- Witness for `pagination_validation`: the default inventory list model
instantiates the first characterization. -/
theorem pagination_validation_witness :
    InvListModel.validLimits {} = true ↔
      0 < ({} : InvListModel).limit ∧ ({} : InvListModel).limit ≤ 100 :=
  pagination_validation.1 {}

theorem categoryCount_none (s : Store) : categoryCount s none = 0 := by
  unfold categoryCount
  induction s.categories with
  | nil => rfl
  | cons c cs ih => simp [ih]

theorem brandCount_none (s : Store) : brandCount s none = 0 := by
  unfold brandCount
  induction s.brands with
  | nil => rfl
  | cons b bs ih => simp [ih]

/-- C6: product create and update succeed only when both category_id and
brand_id each match exactly one existing row; an input whose category_id or
brand_id is absent (null) is rejected even though the schema marks those
fields optional, because a null key matches zero rows. -/
theorem product_fk_required (s : Store) (ins : ProductInsert)
    (upd : ProductUpdate) :
    (∀ r s1, insert_prod ins s = (.ok r, s1) →
      categoryCount s ins.category_id = 1 ∧ brandCount s ins.brand_id = 1) ∧
    (∀ r s1, update_prod upd s = (.ok r, s1) →
      categoryCount s upd.category_id = 1 ∧ brandCount s upd.brand_id = 1) ∧
    (ins.category_id = none →
      insert_prod ins s =
        (.error (.httpError 404 "category_id is not valid."), s)) ∧
    (ins.brand_id = none → categoryCount s ins.category_id = 1 →
      insert_prod ins s =
        (.error (.httpError 404 "brand_id is not valid."), s)) ∧
    (upd.category_id = none →
      update_prod upd s =
        (.error (.httpError 404 "category_id is not valid."), s)) ∧
    (upd.brand_id = none → categoryCount s upd.category_id = 1 →
      update_prod upd s =
        (.error (.httpError 404 "brand_id is not valid."), s)) := by
  refine ⟨?_, ?_, ?_, ?_, ?_, ?_⟩
  · intro r s1 hok
    by_cases h1 : categoryCount s ins.category_id ≠ 1
    · unfold insert_prod at hok
      rw [if_pos h1] at hok
      exact absurd hok (by simp)
    · by_cases h2 : brandCount s ins.brand_id ≠ 1
      · unfold insert_prod at hok
        rw [if_neg h1, if_pos h2] at hok
        exact absurd hok (by simp)
      · exact ⟨not_not.mp h1, not_not.mp h2⟩
  · intro r s1 hok
    by_cases h1 : categoryCount s upd.category_id ≠ 1
    · unfold update_prod at hok
      rw [if_pos h1] at hok
      exact absurd hok (by simp)
    · by_cases h2 : brandCount s upd.brand_id ≠ 1
      · unfold update_prod at hok
        rw [if_neg h1, if_pos h2] at hok
        exact absurd hok (by simp)
      · exact ⟨not_not.mp h1, not_not.mp h2⟩
  · intro hnone
    unfold insert_prod
    rw [if_pos (by rw [hnone, categoryCount_none]; exact one_ne_zero ∘ Eq.symm)]
  · intro hnone h1
    unfold insert_prod
    rw [if_neg (fun hc => hc h1),
        if_pos (by rw [hnone, brandCount_none]; exact one_ne_zero ∘ Eq.symm)]
  · intro hnone
    unfold update_prod
    rw [if_pos (by rw [hnone, categoryCount_none]; exact one_ne_zero ∘ Eq.symm)]
  · intro hnone h1
    unfold update_prod
    rw [if_neg (fun hc => hc h1),
        if_pos (by rw [hnone, brandCount_none]; exact one_ne_zero ∘ Eq.symm)]

/-- Witness for `product_fk_required`: inserting a product with a null
category_id into the concrete store is rejected, and a successful insert
has both foreign keys matching exactly one row. -/
theorem product_fk_required_witness :
    insert_prod { product_name := "Robot", category_id := none,
                  brand_id := some 1 } exampleStore =
      (.error (.httpError 404 "category_id is not valid."), exampleStore) ∧
    (insert_prod { product_name := "Car", category_id := some 1,
                   brand_id := some 1 } exampleStore =
       (.ok { product_id := 2, product_name := "Car", category_id := some 1,
              brand_id := some 1 },
        { exampleStore with
            products := exampleStore.products ++
              [{ product_id := 2, product_name := "Car",
                 category_id := some 1, brand_id := some 1 }],
            nextProductId := 3 }) →
     categoryCount exampleStore (some 1) = 1 ∧
     brandCount exampleStore (some 1) = 1) :=
  ⟨(product_fk_required exampleStore
     { product_name := "Robot", category_id := none, brand_id := some 1 }
     { product_id := 1, product_name := "Robot", category_id := some 1,
       brand_id := some 1 }).2.2.1 rfl,
   fun h => (product_fk_required exampleStore
     { product_name := "Car", category_id := some 1, brand_id := some 1 }
     { product_id := 1, product_name := "Robot", category_id := some 1,
       brand_id := some 1 }).1 _ _ h⟩

/-- C9: creating or updating a Category, Brand or Product with an empty
name is rejected with a 404 naming the field (after the product foreign-key
checks pass) and writes nothing, while a non-empty name never triggers the
empty-name error. -/
theorem name_validation (s : Store) (cat : CategoryDataModel)
    (br : BrandDataModel) (ins : ProductInsert) (upd : ProductUpdate)
    (cid bid : Nat) :
    (cat.category_name = "" →
      add_category cat s =
        (.error (.httpError 404 "category_name must not be empty."), s) ∧
      update_category cid cat s =
        (.error (.httpError 404 "category_name must not be empty."), s)) ∧
    (br.brand_name = "" →
      add_brand br s =
        (.error (.httpError 404 "brand_name must not be empty."), s) ∧
      update_brand bid br s =
        (.error (.httpError 404 "brand_name must not be empty."), s)) ∧
    (ins.product_name = "" → categoryCount s ins.category_id = 1 →
      brandCount s ins.brand_id = 1 →
      insert_prod ins s =
        (.error (.httpError 404 "product_name must not be empty."), s)) ∧
    (upd.product_name = "" → categoryCount s upd.category_id = 1 →
      brandCount s upd.brand_id = 1 →
      update_prod upd s =
        (.error (.httpError 404 "product_name must not be empty."), s)) ∧
    (cat.category_name ≠ "" →
      (add_category cat s).1 ≠
        .error (.httpError 404 "category_name must not be empty.") ∧
      (update_category cid cat s).1 ≠
        .error (.httpError 404 "category_name must not be empty.")) ∧
    (br.brand_name ≠ "" →
      (add_brand br s).1 ≠
        .error (.httpError 404 "brand_name must not be empty.") ∧
      (update_brand bid br s).1 ≠
        .error (.httpError 404 "brand_name must not be empty.")) ∧
    (ins.product_name ≠ "" →
      (insert_prod ins s).1 ≠
        .error (.httpError 404 "product_name must not be empty.")) ∧
    (upd.product_name ≠ "" →
      (update_prod upd s).1 ≠
        .error (.httpError 404 "product_name must not be empty.")) := by
  refine ⟨?_, ?_, ?_, ?_, ?_, ?_, ?_, ?_⟩
  · intro h
    constructor
    · unfold add_category
      rw [if_pos (by rw [h]; exact Nat.le_refl 0)]
    · unfold update_category
      rw [if_pos (by rw [h]; exact Nat.le_refl 0)]
  · intro h
    constructor
    · unfold add_brand
      rw [if_pos (by rw [h]; exact Nat.le_refl 0)]
    · unfold update_brand
      rw [if_pos (by rw [h]; exact Nat.le_refl 0)]
  · intro h h1 h2
    unfold insert_prod
    rw [if_neg (fun hc => hc h1), if_neg (fun hc => hc h2),
        if_pos (by rw [h]; exact Nat.le_refl 0)]
  · intro h h1 h2
    unfold update_prod
    rw [if_neg (fun hc => hc h1), if_neg (fun hc => hc h2),
        if_pos (by rw [h]; exact Nat.le_refl 0)]
  · intro h
    constructor
    · unfold add_category
      rw [if_neg (not_length_le_zero_of_ne_empty _ h)]
      simp
    · unfold update_category
      rw [if_neg (not_length_le_zero_of_ne_empty _ h)]
      cases hfind : s.categories.find? (fun c => c.category_id == cid) with
      | none => simp
      | some c0 => simp
  · intro h
    constructor
    · unfold add_brand
      rw [if_neg (not_length_le_zero_of_ne_empty _ h)]
      simp
    · unfold update_brand
      rw [if_neg (not_length_le_zero_of_ne_empty _ h)]
      cases hfind : s.brands.find? (fun b => b.brand_id == bid) with
      | none => simp
      | some b0 => simp
  · intro h
    unfold insert_prod
    by_cases h1 : categoryCount s ins.category_id ≠ 1
    · rw [if_pos h1]; simp
    · rw [if_neg h1]
      by_cases h2 : brandCount s ins.brand_id ≠ 1
      · rw [if_pos h2]; simp
      · rw [if_neg h2, if_neg (not_length_le_zero_of_ne_empty _ h)]
        simp
  · intro h
    unfold update_prod
    by_cases h1 : categoryCount s upd.category_id ≠ 1
    · rw [if_pos h1]; simp
    · rw [if_neg h1]
      by_cases h2 : brandCount s upd.brand_id ≠ 1
      · rw [if_pos h2]; simp
      · rw [if_neg h2, if_neg (not_length_le_zero_of_ne_empty _ h)]
        cases hfilter :
            s.products.filter (fun p => p.product_id == upd.product_id) with
        | nil => simp
        | cons p0 rest =>
            cases rest with
            | nil => simp
            | cons p1 rest2 => simp

/-- Witness for `name_validation`: the empty category name is rejected on
the concrete store and the non-empty name "Toys" never triggers the
empty-name error. -/
theorem name_validation_witness :
    (add_category { category_name := "" } exampleStore =
       (.error (.httpError 404 "category_name must not be empty."),
        exampleStore) ∧
     update_category 1 { category_name := "" } exampleStore =
       (.error (.httpError 404 "category_name must not be empty."),
        exampleStore)) ∧
    ((add_category { category_name := "Toys" } exampleStore).1 ≠
       .error (.httpError 404 "category_name must not be empty.") ∧
     (update_category 1 { category_name := "Toys" } exampleStore).1 ≠
       .error (.httpError 404 "category_name must not be empty.")) :=
  ⟨(name_validation exampleStore ⟨""⟩ ⟨"x"⟩ ⟨"x", some 1, some 1⟩
      ⟨1, "x", some 1, some 1⟩ 1 1).1 rfl,
   (name_validation exampleStore ⟨"Toys"⟩ ⟨"x"⟩ ⟨"x", some 1, some 1⟩
      ⟨1, "x", some 1, some 1⟩ 1 1).2.2.2.2.1 (by decide)⟩

/-- C7 counterexample: a sale update whose foreign keys are valid and whose
boundary values are quantity_sold = 1 and sale_price = 0 is nevertheless
rejected when the target sale_id (here 5) identifies no sale, so the input
is not "rejected exactly when quantity_sold <= 0 or sale_price < 0". -/
theorem update_sale_boundary_rejected_on_absent_target :
    prodCount exampleStore 1 = 1 ∧ platformCount exampleStore 1 = 1 ∧
    update_sale 5 { product_id := 1, platform_id := 1, sale_date := 0,
                    quantity_sold := 1, sale_price := 0 } exampleStore =
      (.error (.httpError 404 "sale_id is not valid."), exampleStore) := by
  refine ⟨rfl, rfl, ?_⟩
  rfl

/-- C7 amended: with valid foreign keys, sale creation is rejected exactly
when quantity_sold <= 0 or sale_price < 0, and those values always reject
sale update too; sale update additionally requires sale_id to identify an
existing sale, and with such a target it accepts exactly when
quantity_sold > 0 and sale_price >= 0, so the boundary quantity_sold = 1,
sale_price = 0 always passes the quantity and price checks. -/
theorem sale_quantity_price_validation (s : Store) (item : SalesDataModel)
    (sid : Nat) (hp : prodCount s item.product_id = 1)
    (hpl : platformCount s item.platform_id = 1) :
    ((∃ r s1, add_sale item s = (.ok r, s1)) ↔
      ¬(item.quantity_sold ≤ 0 ∨ item.sale_price < 0)) ∧
    (item.quantity_sold ≤ 0 →
      add_sale item s =
        (.error (.httpError 404 "quantity_sold must be greater than zero."),
         s) ∧
      update_sale sid item s =
        (.error (.httpError 404 "quantity_sold must be greater than zero."),
         s)) ∧
    (¬ item.quantity_sold ≤ 0 → item.sale_price < 0 →
      add_sale item s =
        (.error (.httpError 404 "sale_price can not be a negitive number."),
         s) ∧
      update_sale sid item s =
        (.error (.httpError 404 "sale_price can not be a negitive number."),
         s)) ∧
    ((s.sales.find? (fun x => x.sale_id == sid)).isSome →
      ((∃ r s1, update_sale sid item s = (.ok r, s1)) ↔
        ¬(item.quantity_sold ≤ 0 ∨ item.sale_price < 0))) := by
  refine ⟨?_, ?_, ?_, ?_⟩
  · constructor
    · rintro ⟨r, s1, hok⟩
      by_cases h3 : item.quantity_sold ≤ 0
      · unfold add_sale at hok
        rw [if_neg (fun hc => hc hp), if_neg (fun hc => hc hpl),
            if_pos h3] at hok
        exact absurd hok (by simp)
      · by_cases h4 : item.sale_price < 0
        · unfold add_sale at hok
          rw [if_neg (fun hc => hc hp), if_neg (fun hc => hc hpl),
              if_neg h3, if_pos h4] at hok
          exact absurd hok (by simp)
        · exact fun hor => hor.elim h3 h4
    · intro hno
      rw [not_or] at hno
      unfold add_sale
      rw [if_neg (fun hc => hc hp), if_neg (fun hc => hc hpl),
          if_neg hno.1, if_neg hno.2]
      exact ⟨_, _, rfl⟩
  · intro h3
    constructor
    · unfold add_sale
      rw [if_neg (fun hc => hc hp), if_neg (fun hc => hc hpl), if_pos h3]
    · unfold update_sale
      rw [if_neg (fun hc => hc hp), if_neg (fun hc => hc hpl), if_pos h3]
  · intro h3 h4
    constructor
    · unfold add_sale
      rw [if_neg (fun hc => hc hp), if_neg (fun hc => hc hpl),
          if_neg h3, if_pos h4]
    · unfold update_sale
      rw [if_neg (fun hc => hc hp), if_neg (fun hc => hc hpl),
          if_neg h3, if_pos h4]
  · intro hsome
    constructor
    · rintro ⟨r, s1, hok⟩
      by_cases h3 : item.quantity_sold ≤ 0
      · unfold update_sale at hok
        rw [if_neg (fun hc => hc hp), if_neg (fun hc => hc hpl),
            if_pos h3] at hok
        exact absurd hok (by simp)
      · by_cases h4 : item.sale_price < 0
        · unfold update_sale at hok
          rw [if_neg (fun hc => hc hp), if_neg (fun hc => hc hpl),
              if_neg h3, if_pos h4] at hok
          exact absurd hok (by simp)
        · exact fun hor => hor.elim h3 h4
    · intro hno
      rw [not_or] at hno
      obtain ⟨x0, hx0⟩ := Option.isSome_iff_exists.mp hsome
      unfold update_sale
      rw [if_neg (fun hc => hc hp), if_neg (fun hc => hc hpl),
          if_neg hno.1, if_neg hno.2, hx0]
      exact ⟨_, _, rfl⟩

/-- Witness for `sale_quantity_price_validation`: the boundary input with
quantity_sold = 1 and sale_price = 0 is accepted by sale creation on the
concrete store. -/
theorem sale_quantity_price_validation_witness :
    prodCount exampleStore 1 = 1 ∧ platformCount exampleStore 1 = 1 ∧
    ((∃ r s1, add_sale { product_id := 1, platform_id := 1, sale_date := 0,
                         quantity_sold := 1, sale_price := 0 }
        exampleStore = (.ok r, s1)) ↔
      ¬((1 : Int) ≤ 0 ∨ (0 : Int) < 0)) :=
  ⟨by decide, by decide,
   (sale_quantity_price_validation exampleStore
     { product_id := 1, platform_id := 1, sale_date := 0,
       quantity_sold := 1, sale_price := 0 } 5 (by decide) (by decide)).1⟩

/-- C4 counterexample: updating product id 2 (absent from the concrete
store) with valid category, brand and name does not produce the 404
NotFound error: the handler fetches the target with `.one()`, which raises
the uncaught `NoResultFound` exception instead. -/
theorem update_prod_absent_id_not_notfound :
    update_prod { product_id := 2, product_name := "Robot",
                  category_id := some 1, brand_id := some 1 } exampleStore =
      (.error .noResultFound, exampleStore) ∧
    ApiError.noResultFound ≠
      ApiError.httpError 404 "product_id is not valid." := by
  exact ⟨rfl, by decide⟩

/-- C4 amended: with the earlier field validations passing, Category, Brand
and Sale updates fail with a 404 NotFound when the target id is absent and
otherwise fully replace the mutable fields of the matched row; Product
update instead raises the uncaught NoResultFound exception when the
product_id matches no row, and fully replaces the mutable fields when it
matches exactly one row. -/
theorem update_handlers_target_semantics (s : Store) (cid bid sid : Nat)
    (cat : CategoryDataModel) (br : BrandDataModel)
    (saleItem : SalesDataModel) (prodItem : ProductUpdate)
    (hcat : cat.category_name ≠ "") (hbr : br.brand_name ≠ "")
    (hsp : prodCount s saleItem.product_id = 1)
    (hspl : platformCount s saleItem.platform_id = 1)
    (hsq : ¬ saleItem.quantity_sold ≤ 0) (hsn : ¬ saleItem.sale_price < 0)
    (hpc : categoryCount s prodItem.category_id = 1)
    (hpb : brandCount s prodItem.brand_id = 1)
    (hpn : prodItem.product_name ≠ "") :
    (s.categories.find? (fun c => c.category_id == cid) = none →
      update_category cid cat s =
        (.error (.httpError 404 "category_id is not valid."), s)) ∧
    (∀ c0, s.categories.find? (fun c => c.category_id == cid) = some c0 →
      update_category cid cat s =
        (.ok { c0 with category_name := cat.category_name },
         { s with categories := updateFirst (fun c => c.category_id == cid) (fun c => { c with category_name := cat.category_name }) s.categories })) ∧
    (s.brands.find? (fun b => b.brand_id == bid) = none →
      update_brand bid br s =
        (.error (.httpError 404 "brand_id is not valid."), s)) ∧
    (∀ b0, s.brands.find? (fun b => b.brand_id == bid) = some b0 →
      update_brand bid br s =
        (.ok { b0 with brand_name := br.brand_name },
         { s with brands := updateFirst (fun b => b.brand_id == bid) (fun b => { b with brand_name := br.brand_name }) s.brands })) ∧
    (s.sales.find? (fun x => x.sale_id == sid) = none →
      update_sale sid saleItem s =
        (.error (.httpError 404 "sale_id is not valid."), s)) ∧
    (∀ x0, s.sales.find? (fun x => x.sale_id == sid) = some x0 →
      update_sale sid saleItem s =
        (.ok { x0 with product_id := saleItem.product_id, platform_id := saleItem.platform_id, sale_date := saleItem.sale_date, quantity_sold := saleItem.quantity_sold, sale_price := saleItem.sale_price },
         { s with sales := updateFirst (fun x => x.sale_id == sid) (fun x => { x with product_id := saleItem.product_id, platform_id := saleItem.platform_id, sale_date := saleItem.sale_date, quantity_sold := saleItem.quantity_sold, sale_price := saleItem.sale_price }) s.sales })) ∧
    (s.products.filter (fun p => p.product_id == prodItem.product_id) = [] →
      update_prod prodItem s = (.error .noResultFound, s)) ∧
    (∀ p0, s.products.filter (fun p => p.product_id == prodItem.product_id) = [p0] →
      update_prod prodItem s =
        (.ok { p0 with product_name := prodItem.product_name, category_id := prodItem.category_id, brand_id := prodItem.brand_id },
         { s with products := updateFirst (fun p => p.product_id == prodItem.product_id) (fun p => { p with product_name := prodItem.product_name, category_id := prodItem.category_id, brand_id := prodItem.brand_id }) s.products })) := by
  refine ⟨?_, ?_, ?_, ?_, ?_, ?_, ?_, ?_⟩
  · intro hfind
    unfold update_category
    rw [if_neg (not_length_le_zero_of_ne_empty _ hcat), hfind]
  · intro c0 hfind
    unfold update_category
    rw [if_neg (not_length_le_zero_of_ne_empty _ hcat), hfind]
  · intro hfind
    unfold update_brand
    rw [if_neg (not_length_le_zero_of_ne_empty _ hbr), hfind]
  · intro b0 hfind
    unfold update_brand
    rw [if_neg (not_length_le_zero_of_ne_empty _ hbr), hfind]
  · intro hfind
    unfold update_sale
    rw [if_neg (fun hc => hc hsp), if_neg (fun hc => hc hspl),
        if_neg hsq, if_neg hsn, hfind]
  · intro x0 hfind
    unfold update_sale
    rw [if_neg (fun hc => hc hsp), if_neg (fun hc => hc hspl),
        if_neg hsq, if_neg hsn, hfind]
  · intro hfilter
    unfold update_prod
    rw [if_neg (fun hc => hc hpc), if_neg (fun hc => hc hpb),
        if_neg (not_length_le_zero_of_ne_empty _ hpn), hfilter]
  · intro p0 hfilter
    unfold update_prod
    rw [if_neg (fun hc => hc hpc), if_neg (fun hc => hc hpb),
        if_neg (not_length_le_zero_of_ne_empty _ hpn), hfilter]

/-- Witness for `update_handlers_target_semantics`: on the concrete store,
updating category 1 replaces its name and updating sale 5 (absent) yields
the 404 NotFound. -/
theorem update_handlers_target_semantics_witness :
    update_category 1 { category_name := "Games" } exampleStore =
      (.ok { category_id := 1, category_name := "Games" },
       { exampleStore with
           categories := [{ category_id := 1, category_name := "Games" }] }) ∧
    update_sale 5 { product_id := 1, platform_id := 1, sale_date := 0,
                    quantity_sold := 1, sale_price := 0 } exampleStore =
      (.error (.httpError 404 "sale_id is not valid."), exampleStore) :=
  ⟨(update_handlers_target_semantics exampleStore 1 1 5
      { category_name := "Games" } { brand_name := "Acme" }
      ⟨1, 1, 0, 1, 0⟩ ⟨1, "Robot", some 1, some 1⟩
      (by decide) (by decide) (by decide) (by decide) (by decide)
      (by decide) (by decide) (by decide) (by decide)).2.1
      { category_id := 1, category_name := "Toys" } rfl,
   (update_handlers_target_semantics exampleStore 1 1 5
      { category_name := "Games" } { brand_name := "Acme" }
      ⟨1, 1, 0, 1, 0⟩ ⟨1, "Robot", some 1, some 1⟩
      (by decide) (by decide) (by decide) (by decide) (by decide)
      (by decide) (by decide) (by decide) (by decide)).2.2.2.2.1 rfl⟩

theorem likeFuel_iff : ∀ (n : Nat) (p t : List Char),
    p.length + t.length < n → (likeFuel n p t = true ↔ LikeMatches p t) := by
  intro n
  induction n with
  | zero => intro p t h; exact absurd h (Nat.not_lt_zero _)
  | succ n ih =>
      intro p t hlen
      cases p with
      | nil =>
          cases t with
          | nil =>
              simp only [likeFuel, List.isEmpty_nil]
              exact ⟨fun _ => LikeMatches.nil, fun _ => trivial⟩
          | cons c ts =>
              simp only [likeFuel, List.isEmpty_cons]
              constructor
              · intro h; exact absurd h (by simp)
              · intro h; cases h
      | cons p0 ps =>
          simp only [List.length_cons] at hlen
          by_cases hp : p0 = '%'
          · subst hp
            cases t with
            | nil =>
                simp only [likeFuel, if_pos rfl, if_true, Bool.or_false]
                rw [ih ps [] (by simp; omega)]
                constructor
                · exact fun h => LikeMatches.pctSkip ps [] h
                · intro h
                  cases h with
                  | pctSkip _ _ h2 => exact h2
            | cons c ts =>
                simp only [likeFuel, if_pos rfl, if_true, Bool.or_eq_true]
                simp only [List.length_cons] at hlen
                rw [ih ps (c :: ts) (by simp; omega),
                    ih ('%' :: ps) ts (by simp; omega)]
                constructor
                · rintro (h | h)
                  · exact LikeMatches.pctSkip _ _ h
                  · exact LikeMatches.pctTake _ _ _ h
                · intro h
                  cases h with
                  | pctSkip _ _ h2 => exact Or.inl h2
                  | pctTake _ _ _ h2 => exact Or.inr h2
                  | char _ _ _ _ h1 _ _ _ => exact absurd rfl h1
          · cases t with
            | nil =>
                simp only [likeFuel, if_neg hp]
                constructor
                · intro h; exact absurd h (by simp)
                · intro h
                  cases h with
                  | pctSkip _ _ _ => exact absurd rfl hp
            | cons c ts =>
                simp only [List.length_cons] at hlen
                by_cases hu : p0 = '_'
                · subst hu
                  simp only [likeFuel, if_neg hp, if_pos rfl, if_true]
                  rw [ih ps ts (by omega)]
                  constructor
                  · exact fun h => LikeMatches.one ps c ts h
                  · intro h
                    cases h with
                    | one _ _ _ h2 => exact h2
                    | char _ _ _ _ h1 h2 h3 h4 => exact absurd rfl h2
                · simp only [likeFuel, if_neg hp, if_neg hu,
                    Bool.and_eq_true, beq_iff_eq]
                  rw [ih ps ts (by omega)]
                  constructor
                  · rintro ⟨heq, hm⟩
                    exact LikeMatches.char p0 ps c ts hp hu heq hm
                  · intro h
                    cases h with
                    | pctSkip _ _ _ => exact absurd rfl hp
                    | pctTake _ _ _ _ => exact absurd rfl hp
                    | one _ _ _ _ => exact absurd rfl hu
                    | char _ _ _ _ h1 h2 h3 h4 => exact ⟨h3, h4⟩

theorem likeChars_iff (p t : List Char) :
    likeChars p t = true ↔ LikeMatches p t :=
  likeFuel_iff (p.length + t.length + 1) p t (Nat.lt_succ_self _)

/-- C8 counterexample: the product list filtered by product_name "ROBOT"
returns the product named "Robot", because the code executes the sqlite
pattern `product_name LIKE '%ROBOT%'` and sqlite LIKE is ASCII
case-insensitive; yet "ROBOT" is not a substring of "Robot", so a set
product_name filter does not match by substring containment. -/
theorem product_name_filter_not_substring :
    get_prod { product_name := some "ROBOT" } exampleStore =
      [{ product_id := 1, product_name := "Robot", category_id := some 1,
         brand_id := some 1 }] ∧
    ¬ specSubstring "Robot" "ROBOT" := by
  constructor
  · decide
  · intro h
    exact absurd ((containsSub_iff "Robot".data "ROBOT".data).mpr h)
      (by decide)

/-- C8 amended: the list endpoints treat unset filter fields as no
constraint; the identity and date filters match by exact equality; the
stock bounds apply inclusively; and a set product_name filter value x
matches through the sqlite pattern `LIKE '%' || x || '%'`, which is
ASCII case-insensitive containment in which `%` and `_` inside x act as
wildcards (literal substring containment only up to those two points). The
boolean filters of the handlers coincide with the specification-side
predicates, and every row a list endpoint returns comes from the table and
satisfies the specification predicate. -/
theorem list_filter_semantics :
    (∀ c r, invMatches c r = true ↔ InvFilterSpec c r) ∧
    (∀ c r, prodMatches c r = true ↔ ProductFilterSpec c r) ∧
    (∀ c r, saleMatches c r = true ↔ SaleFilterSpec c r) ∧
    (∀ c s r, r ∈ get_inv c s → r ∈ s.inventory ∧ InvFilterSpec c r) ∧
    (∀ c s r, r ∈ get_prod c s → r ∈ s.products ∧ ProductFilterSpec c r) ∧
    (∀ c s r, r ∈ get_sales c s → r ∈ s.sales ∧ SaleFilterSpec c r) := by
  have hinv : ∀ c r, invMatches c r = true ↔ InvFilterSpec c r := by
    intro c r
    obtain ⟨pid, plid, minq, maxq, off, lim⟩ := c
    unfold invMatches InvFilterSpec
    cases pid <;> cases plid <;> cases minq <;> cases maxq <;>
      simp [beq_iff_eq, and_assoc, @eq_comm _ r.product_id,
            @eq_comm _ r.platform_id]
  have hprod : ∀ c r, prodMatches c r = true ↔ ProductFilterSpec c r := by
    intro c r
    obtain ⟨pid, nm, cid, bid, off, lim⟩ := c
    unfold prodMatches ProductFilterSpec
    cases pid <;> cases nm <;> cases cid <;> cases bid <;>
      simp [likeContains, likeChars_iff, beq_iff_eq, and_assoc,
            @eq_comm _ r.product_id]
  have hsale : ∀ c r, saleMatches c r = true ↔ SaleFilterSpec c r := by
    intro c r
    obtain ⟨pid, plid, d, off, lim⟩ := c
    unfold saleMatches SaleFilterSpec
    cases pid <;> cases plid <;> cases d <;>
      simp [beq_iff_eq, and_assoc]
  refine ⟨hinv, hprod, hsale, ?_, ?_, ?_⟩
  · intro c s r hr
    unfold get_inv at hr
    have h1 := mem_of_mem_applyPage _ _ _ _ hr
    rw [List.mem_filter] at h1
    exact ⟨h1.1, (hinv c r).mp h1.2⟩
  · intro c s r hr
    unfold get_prod at hr
    have h1 := mem_of_mem_applyPage _ _ _ _ hr
    rw [List.mem_filter] at h1
    exact ⟨h1.1, (hprod c r).mp h1.2⟩
  · intro c s r hr
    unfold get_sales at hr
    have h1 := mem_of_mem_applyPage _ _ _ _ hr
    rw [List.mem_filter] at h1
    exact ⟨h1.1, (hsale c r).mp h1.2⟩

/-- Witness for `list_filter_semantics`: a filter on product name "OBO"
matches the product "Robot" through the case-insensitive LIKE pattern, and
the inventory row returned by the unfiltered list satisfies the
specification predicate. -/
theorem list_filter_semantics_witness :
    (prodMatches { product_name := some "OBO" }
        { product_id := 1, product_name := "Robot", category_id := some 1,
          brand_id := some 1 } = true ↔
      ProductFilterSpec { product_name := some "OBO" }
        { product_id := 1, product_name := "Robot", category_id := some 1,
          brand_id := some 1 }) ∧
    ({ inventory_id := 1, product_id := 1, platform_id := 1,
       stock_quantity := 5, last_updated := 0 } ∈
        get_inv {} exampleStoreInv →
      ({ inventory_id := 1, product_id := 1, platform_id := 1,
         stock_quantity := 5, last_updated := 0 } : Inventory) ∈
          exampleStoreInv.inventory ∧
        InvFilterSpec {}
          { inventory_id := 1, product_id := 1, platform_id := 1,
            stock_quantity := 5, last_updated := 0 }) :=
  ⟨list_filter_semantics.2.1 { product_name := some "OBO" }
     { product_id := 1, product_name := "Robot", category_id := some 1,
       brand_id := some 1 },
   list_filter_semantics.2.2.2.1 {} exampleStoreInv
     { inventory_id := 1, product_id := 1, platform_id := 1,
       stock_quantity := 5, last_updated := 0 }⟩


/-- C1: for a valid upsert input (existing product and platform,
nonnegative stock), POST /inventory creates the row keyed by
`(product_id, platform_id)` when none exists and otherwise overwrites its
stock_quantity and timestamp, returning the row; two identical calls at
strictly increasing clock values both succeed, leave stock_quantity at the
second call's value with last_updated strictly increasing, and the second
call changes nothing but the matched row's last_updated field. -/
theorem update_inv_upsert_idempotent (s : Store) (item : InvUpdate)
    (t1 t2 : Nat) (hp : prodCount s item.product_id = 1)
    (hpl : platformCount s item.platform_id = 1)
    (hq : ¬ item.stock_quantity < 0) (ht : t1 < t2) :
    ∃ r1 s1 r2 s2,
      update_inv item t1 s = (.ok r1, s1) ∧
      update_inv item t2 s1 = (.ok r2, s2) ∧
      r1.product_id = item.product_id ∧ r1.platform_id = item.platform_id ∧
      r1.stock_quantity = item.stock_quantity ∧ r1.last_updated = t1 ∧
      r2.stock_quantity = item.stock_quantity ∧ r2.last_updated = t2 ∧
      r1.last_updated < r2.last_updated ∧
      (s.inventory.find?
          (invKeyMatches item.product_id item.platform_id) = none →
        s1.inventory = s.inventory ++ [r1]) ∧
      (∀ r0, s.inventory.find?
          (invKeyMatches item.product_id item.platform_id) = some r0 →
        r1 = { r0 with stock_quantity := item.stock_quantity,
                       last_updated := t1 } ∧
        s1.inventory =
          updateFirst (invKeyMatches item.product_id item.platform_id)
            (fun r => { r with stock_quantity := item.stock_quantity,
                               last_updated := t1 }) s.inventory) ∧
      s2 = { s1 with
        inventory :=
          updateFirst (invKeyMatches item.product_id item.platform_id)
            (fun r => { r with last_updated := t2 }) s1.inventory } := by
  cases hfind : s.inventory.find?
      (invKeyMatches item.product_id item.platform_id) with
  | none =>
      have heq1 : update_inv item t1 s =
          (.ok { inventory_id := s.nextInventoryId,
                 product_id := item.product_id,
                 platform_id := item.platform_id,
                 stock_quantity := item.stock_quantity,
                 last_updated := t1 },
           { s with
               inventory :=
                 s.inventory ++
                   [{ inventory_id := s.nextInventoryId,
                      product_id := item.product_id,
                      platform_id := item.platform_id,
                      stock_quantity := item.stock_quantity,
                      last_updated := t1 }],
               nextInventoryId := s.nextInventoryId + 1 }) := by
        unfold update_inv
        rw [if_neg (fun hc => hc hp), if_neg (fun hc => hc hpl),
            if_neg hq, hfind]
      have hfind2 :
          (s.inventory ++
            [({ inventory_id := s.nextInventoryId,
                product_id := item.product_id,
                platform_id := item.platform_id,
                stock_quantity := item.stock_quantity,
                last_updated := t1 } : Inventory)]).find?
              (invKeyMatches item.product_id item.platform_id) =
            some ({ inventory_id := s.nextInventoryId,
                    product_id := item.product_id,
                    platform_id := item.platform_id,
                    stock_quantity := item.stock_quantity,
                    last_updated := t1 } : Inventory) := by
        rw [find?_append_of_none _ _ _ hfind]
        simp [List.find?_cons, invKeyMatches]
      have heq2 : update_inv item t2
          { s with
              inventory :=
                s.inventory ++
                  [{ inventory_id := s.nextInventoryId,
                     product_id := item.product_id,
                     platform_id := item.platform_id,
                     stock_quantity := item.stock_quantity,
                     last_updated := t1 }],
              nextInventoryId := s.nextInventoryId + 1 } =
          (.ok { inventory_id := s.nextInventoryId,
                 product_id := item.product_id,
                 platform_id := item.platform_id,
                 stock_quantity := item.stock_quantity,
                 last_updated := t2 },
           { s with
               inventory :=
                 updateFirst
                   (invKeyMatches item.product_id item.platform_id)
                   (fun r => { r with
                      stock_quantity := item.stock_quantity,
                      last_updated := t2 })
                   (s.inventory ++
                     [{ inventory_id := s.nextInventoryId,
                        product_id := item.product_id,
                        platform_id := item.platform_id,
                        stock_quantity := item.stock_quantity,
                        last_updated := t1 }]),
               nextInventoryId := s.nextInventoryId + 1 }) := by
        unfold update_inv
        rw [if_neg (fun hc => hc hp), if_neg (fun hc => hc hpl),
            if_neg hq, hfind2]
      have hcongr := updateFirst_congr_of_find?
        (invKeyMatches item.product_id item.platform_id)
        (fun r => { r with stock_quantity := item.stock_quantity,
                           last_updated := t2 })
        (fun r => { r with last_updated := t2 })
        (s.inventory ++
          [{ inventory_id := s.nextInventoryId,
             product_id := item.product_id,
             platform_id := item.platform_id,
             stock_quantity := item.stock_quantity,
             last_updated := t1 }])
        { inventory_id := s.nextInventoryId,
          product_id := item.product_id,
          platform_id := item.platform_id,
          stock_quantity := item.stock_quantity,
          last_updated := t1 }
        hfind2 rfl
      refine ⟨_, _, _, _, heq1, heq2, rfl, rfl, rfl, rfl, rfl, rfl, ht,
        fun _ => rfl, ?_, ?_⟩
      · intro r0 h0
        exact Option.noConfusion h0
      · rw [Store.mk.injEq]
        exact ⟨rfl, rfl, rfl, rfl, rfl, hcongr, rfl, rfl, rfl, rfl, rfl⟩
  | some r0 =>
      have hkey0 : invKeyMatches item.product_id item.platform_id r0 =
          true := List.find?_some hfind
      have hkey0eq : r0.platform_id = item.platform_id ∧
          r0.product_id = item.product_id := by
        unfold invKeyMatches at hkey0
        simpa using hkey0
      have hkey1 : invKeyMatches item.product_id item.platform_id
          { r0 with stock_quantity := item.stock_quantity,
                    last_updated := t1 } = true := hkey0
      have hfind2 :
          (updateFirst (invKeyMatches item.product_id item.platform_id)
            (fun r => { r with stock_quantity := item.stock_quantity,
                               last_updated := t1 }) s.inventory).find?
              (invKeyMatches item.product_id item.platform_id) =
            some { r0 with stock_quantity := item.stock_quantity,
                           last_updated := t1 } :=
        find?_updateFirst _ _ s.inventory r0 hfind hkey1
      have heq1 : update_inv item t1 s =
          (.ok { r0 with stock_quantity := item.stock_quantity,
                         last_updated := t1 },
           { s with
               inventory :=
                 updateFirst
                   (invKeyMatches item.product_id item.platform_id)
                   (fun r => { r with
                      stock_quantity := item.stock_quantity,
                      last_updated := t1 }) s.inventory }) := by
        unfold update_inv
        rw [if_neg (fun hc => hc hp), if_neg (fun hc => hc hpl),
            if_neg hq, hfind]
      have heq2 : update_inv item t2
          { s with
              inventory :=
                updateFirst
                  (invKeyMatches item.product_id item.platform_id)
                  (fun r => { r with
                     stock_quantity := item.stock_quantity,
                     last_updated := t1 }) s.inventory } =
          (.ok { r0 with stock_quantity := item.stock_quantity,
                         last_updated := t2 },
           { s with
               inventory :=
                 updateFirst
                   (invKeyMatches item.product_id item.platform_id)
                   (fun r => { r with
                      stock_quantity := item.stock_quantity,
                      last_updated := t2 })
                   (updateFirst
                     (invKeyMatches item.product_id item.platform_id)
                     (fun r => { r with
                        stock_quantity := item.stock_quantity,
                        last_updated := t1 }) s.inventory) }) := by
        unfold update_inv
        rw [if_neg (fun hc => hc hp), if_neg (fun hc => hc hpl),
            if_neg hq, hfind2]
      have hcongr := updateFirst_congr_of_find?
        (invKeyMatches item.product_id item.platform_id)
        (fun r => { r with stock_quantity := item.stock_quantity,
                           last_updated := t2 })
        (fun r => { r with last_updated := t2 })
        (updateFirst (invKeyMatches item.product_id item.platform_id)
          (fun r => { r with stock_quantity := item.stock_quantity,
                             last_updated := t1 }) s.inventory)
        { r0 with stock_quantity := item.stock_quantity,
                  last_updated := t1 }
        hfind2 rfl
      refine ⟨_, _, _, _, heq1, heq2, hkey0eq.2, hkey0eq.1, rfl, rfl, rfl,
        rfl, ht, ?_, ?_, ?_⟩
      · intro h0
        exact Option.noConfusion h0
      · intro r0b h0
        rw [Option.some.injEq] at h0
        subst h0
        exact ⟨rfl, rfl⟩
      · rw [Store.mk.injEq]
        exact ⟨rfl, rfl, rfl, rfl, rfl, hcongr, rfl, rfl, rfl, rfl, rfl⟩

/-- Witness for `update_inv_upsert_idempotent`: two upserts for product 1,
platform 1 with stock 5 on the concrete store at clock values 0 and 1. -/
theorem update_inv_upsert_idempotent_witness :
    prodCount exampleStore 1 = 1 ∧ platformCount exampleStore 1 = 1 ∧
    ¬ (5 : Int) < 0 ∧ (0 : Nat) < 1 ∧
    (∃ r1 s1 r2 s2,
      update_inv { product_id := 1, platform_id := 1, stock_quantity := 5 }
          0 exampleStore = (.ok r1, s1) ∧
      update_inv { product_id := 1, platform_id := 1, stock_quantity := 5 }
          1 s1 = (.ok r2, s2) ∧
      r1.product_id = 1 ∧ r1.platform_id = 1 ∧
      r1.stock_quantity = 5 ∧ r1.last_updated = 0 ∧
      r2.stock_quantity = 5 ∧ r2.last_updated = 1 ∧
      r1.last_updated < r2.last_updated ∧
      (exampleStore.inventory.find? (invKeyMatches 1 1) = none →
        s1.inventory = exampleStore.inventory ++ [r1]) ∧
      (∀ r0, exampleStore.inventory.find? (invKeyMatches 1 1) = some r0 →
        r1 = { r0 with stock_quantity := 5, last_updated := 0 } ∧
        s1.inventory =
          updateFirst (invKeyMatches 1 1)
            (fun r => { r with stock_quantity := 5, last_updated := 0 })
            exampleStore.inventory) ∧
      s2 = { s1 with
        inventory :=
          updateFirst (invKeyMatches 1 1)
            (fun r => { r with last_updated := 1 }) s1.inventory }) :=
  ⟨by decide, by decide, by decide, by decide,
   update_inv_upsert_idempotent exampleStore
     { product_id := 1, platform_id := 1, stock_quantity := 5 } 0 1
     (by decide) (by decide) (by decide) (by decide)⟩
